import Mathlib

/-!
Shallow embedding of the `booking-bot` backend (FastAPI + MongoDB) in Lean 4.

Scope: `src/backend/app/routes/bookings.py` (`create_booking`) and
`src/backend/app/routes/chat.py` (the conversation state machine `chat` and
its helper functions).  Conventions used throughout:

* Python strings are `String`; all character-level work is done on `String.data`
  (`List Char`) because the `String` bignum-position API does not reduce in the
  kernel.  Python lowercasing / whitespace sets are modelled on their ASCII
  fragment (the inputs manipulated by the source are ASCII).
* `datetime` values appear in two roles.  Calendar datetimes (built by
  `_parse_natural_datetime` via `replace`) are a record `PyDateTime` with a
  days-since-epoch field plus time-of-day fields; `timedelta(days=1)` is `day+1`
  and `replace` sets fields, exactly as in Python.  Instants stored in the
  bookings collection are an abstract integer timeline `Int` (minutes); only
  their ordering and `+ slot` arithmetic matter to the source.
* MongoDB collections are Lean lists in insertion order.  `find_one` is
  `List.find?`, `update_one` updates the first match, `insert_one` appends and
  draws `_id` from a counter.  In the `$lt`/`$gt` conflict filter a stored
  `null` never compares against a datetime (BSON type bracketing), which is why
  the overlap test requires both endpoints to be present.
* External collaborators (Bedrock `converse`, `reverse_geocode`, `$geoNear`,
  `uuid4`, `datetime.utcnow`, `fromisoformat`/`isoformat`/`strftime`) are
  oracle fields of an `Env` record; the state machine is a function of the
  `Env`, the database and the inbound request.
* Python exceptions that the source does not catch (the `ValueError` raised by
  `datetime.replace` on an out-of-range hour/minute, the `NameError` on the
  undefined `help_text`) are modelled by threading an explicit "crashed"
  outcome: `chat` returns `DB × Option String`, where `none` means the turn
  aborted with an uncaught exception after the database writes made so far.
* Floats (ratings, distances) carry no float-specific behaviour in the source
  (comparisons and one division for the ETA); ratings are `Rat`, distances are
  integer metres, and the ETA rounding reimplements Python's round-half-to-even
  on the exact rational `d * 60 / 35000`.
-/

namespace BookingBot

instance {ε α : Type} [DecidableEq ε] [DecidableEq α] : DecidableEq (Except ε α) := fun a b =>
  match a, b with
  | .error e, .error f => decidable_of_iff (e = f) (by simp)
  | .ok x, .ok y => decidable_of_iff (x = y) (by simp)
  | .error _, .ok _ => isFalse (by simp)
  | .ok _, .error _ => isFalse (by simp)

/-! ### Python string primitives (ASCII fragment) -/

/-- Python `\s` / `str.strip` whitespace, ASCII fragment. -/
def pySpace (c : Char) : Bool :=
  c = ' ' || c = '\t' || c = '\n' || c = '\r' || c = '\x0b' || c = '\x0c'

/-- Python `\w` (word character), ASCII fragment. -/
def wordChar (c : Char) : Bool :=
  c.isAlpha || c.isDigit || c = '_'

/-- Python `str.lower`, ASCII fragment. -/
def pyLower (s : String) : String :=
  ⟨s.data.map Char.toLower⟩

/-- Python `str.strip()`. -/
def pyStrip (s : String) : String :=
  ⟨((s.data.dropWhile pySpace).reverse.dropWhile pySpace).reverse⟩

/-- Python `needle in haystack` on lists of characters. -/
def subList (pat : List Char) : List Char → Bool
  | [] => pat.isPrefixOf []
  | c :: rest => pat.isPrefixOf (c :: rest) || subList pat rest

/-- Python `needle in haystack` for strings. -/
def pyContains (hay needle : String) : Bool :=
  subList needle.data hay.data

/-- Python `str.startswith`. -/
def pyStarts (s pre : String) : Bool :=
  pre.data.isPrefixOf s.data

/-- Python `str.split(sep, 1)[0]`: everything before the first occurrence of a
one-character separator (the whole string when the separator is absent). -/
def beforeFirst (sep : Char) (s : String) : String :=
  ⟨s.data.takeWhile (· ≠ sep)⟩

/-- Python `str.split(sep)` for a one-character separator (keeps empty parts). -/
def splitOnChar (sep : Char) (s : String) : List String :=
  (s.data.splitOnP (· = sep)).map (⟨·⟩)

/-- Python `str.split()` with no argument: split on whitespace runs, dropping
empty pieces. -/
def splitWs (s : String) : List String :=
  ((s.data.splitOnP pySpace).map (⟨·⟩)).filter (· ≠ "")

/-- Python truthiness of an optional string (`None` and `""` are falsy). -/
def truthyS : Option String → Bool
  | none => false
  | some s => s ≠ ""

/-- Value of an optional string under `x or default` (Python falsy-or). -/
def orS (x : Option String) (d : String) : String :=
  if truthyS x then x.getD d else d

/-- Python `str(x)` rendering of an optional string, where `None` prints as
`"None"` (used inside f-strings). -/
def pyRepr : Option String → String
  | none => "None"
  | some s => s

/-! ### `_extract_phone` (chat.py lines 57-64) -/

/-- Lines 57-64: strip everything after the first `@`, keep digit and `+`
characters, and return the result only if it still contains a digit. -/
def _extract_phone (s : Option String) : Option String :=
  match s with
  | none => none
  | some s0 =>
    if s0 = "" then none   -- `if not s: return None`
    else
      let v := if s0.data.contains '@' then beforeFirst '@' s0 else s0
      let v : String := ⟨v.data.filter (fun ch => ch.isDigit || ch = '+')⟩
      if v.data.any Char.isDigit then some v else none

/-! ### `_norm_tokens` (chat.py lines 66-75) -/

/-- Helper for `lowerRuns`: `acc` is the (reversed) run currently being read. -/
def lowerRunsAux : List Char → List Char → List (List Char)
  | [], acc => if acc = [] then [] else [acc.reverse]
  | c :: rest, acc =>
    if c.isLower then lowerRunsAux rest (c :: acc)
    else if acc = [] then lowerRunsAux rest []
    else acc.reverse :: lowerRunsAux rest []

/-- Python `re.findall(r"[a-z]+", s)`: maximal runs of lowercase letters. -/
def lowerRuns (l : List Char) : List (List Char) :=
  lowerRunsAux l []

/-- The fixed suffix list of `_norm_tokens`, in source order (the duplicated
`"ers"` entry included). -/
def normSuffixes : List String := ["ers", "ments", "ment", "ing", "ers", "er", "ed", "s"]

/-- Strip the first applicable suffix, provided the word is longer than the
suffix by more than 2 characters (`len(w) > len(suf) + 2`). -/
def stripSuffix (w : List Char) : List Char :=
  match normSuffixes.find? (fun suf => suf.data.isSuffixOf w && w.length > suf.data.length + 2) with
  | some suf => w.take (w.length - suf.data.length)
  | none => w

/-- Lines 66-75: lower-case, extract alphabetic tokens, strip one suffix each,
return the token set (modelled as a deduplicated list). -/
def _norm_tokens (s : String) : List String :=
  (((lowerRuns (pyLower s).data).map stripSuffix).map String.mk).dedup

/-- Size of the intersection of two token sets. -/
def tokenOverlap (a b : List String) : Nat :=
  (a.filter (b.contains ·)).length

/-! ### `_parse_natural_datetime` (chat.py lines 77-115)

The three clock-time regexes are hand-compiled into scanners.  Each scanner
reproduces `re.search` semantics for its pattern: leftmost match, greedy
`\d{1,2}` / `\d{3,4}` / `\s*` with backtracking, lazy handling of the optional
`(am|pm)?`, and `\b` word boundaries.  The derivations were cross-checked
against CPython `re` on the boundary cases (e.g. `"3:30amx"` matches nothing,
`"12:30   pmx"` matches with no am/pm group, `"0:5pm"` falls through to the
bare-hour pattern). -/

/-- Python naive `datetime`: `day` is days since an arbitrary epoch
(`timedelta(days=1)` is `day + 1`; `replace` never changes it). -/
structure PyDateTime where
  day : Int
  hour : Nat
  minute : Nat
  second : Nat
  micro : Nat
deriving DecidableEq, Repr

inductive AmPm where
  | am
  | pm
deriving DecidableEq, Repr

/-- Word boundary `\b` at a position whose previous character is a word
character: it holds iff the next character is absent or not a word character. -/
def bAfter : List Char → Bool
  | [] => true
  | c :: _ => !wordChar c

/-- Word boundary `\b` before a digit: holds iff there is no previous character
or it is not a word character. -/
def bBefore : Option Char → Bool
  | none => true
  | some p => !wordChar p

/-- Numeric value of a (short) digit string, e.g. `int("09") = 9`. -/
def natOfDigits (l : List Char) : Nat :=
  l.foldl (fun acc c => 10 * acc + (c.toNat - '0'.toNat)) 0

/-- Tail `\s*(am|pm)?\b` of the first clock regex, entered just after the two
minute digits.  Returns `some group3` on a match.  Backtracking over `\s*`
collapses to: am/pm can only match right after the maximal space run; if it
does not, an empty group succeeds at the maximal run when the next character
is a word character, or (when at least one space was consumed) at zero spaces
right after the minutes digit; with no spaces at all the boundary must hold
right after the digits. -/
def tailA (rest : List Char) : Option (Option AmPm) :=
  let sp := rest.takeWhile pySpace
  let rest2 := rest.dropWhile pySpace
  if ['a', 'm'].isPrefixOf rest2 && bAfter (rest2.drop 2) then some (some .am)
  else if ['p', 'm'].isPrefixOf rest2 && bAfter (rest2.drop 2) then some (some .pm)
  else if sp ≠ [] then some none
  else if bAfter rest2 then some none
  else none

/-- Tail `\s*(am|pm)\b` of the second and third clock regexes (am/pm
mandatory). -/
def tailB (rest : List Char) : Option AmPm :=
  let rest2 := rest.dropWhile pySpace
  if ['a', 'm'].isPrefixOf rest2 && bAfter (rest2.drop 2) then some .am
  else if ['p', 'm'].isPrefixOf rest2 && bAfter (rest2.drop 2) then some .pm
  else none

/-- One attempted match of `\b(\d{1,2}):(\d{2})\s*(am|pm)?\b` at the current
position (`prev` is the character before it). -/
def tryA (prev : Option Char) (l : List Char) : Option (Nat × Nat × Option AmPm) :=
  let afterHour : Nat → List Char → Option (Nat × Nat × Option AmPm) := fun h rest =>
    match rest with
    | ':' :: m1 :: m2 :: rest3 =>
      if m1.isDigit && m2.isDigit then
        (tailA rest3).map (fun ap => (h, natOfDigits [m1, m2], ap))
      else none
    | _ => none
  if bBefore prev then
    match l with
    | d1 :: rest1 =>
      if d1.isDigit then
        let two :=
          match rest1 with
          | d2 :: rest2 =>
            if d2.isDigit then afterHour (natOfDigits [d1, d2]) rest2 else none
          | [] => none
        match two with
        | some r => some r
        | none => afterHour (natOfDigits [d1]) rest1
      else none
    | [] => none
  else none

/-- One attempted match of `\b(\d{3,4})\s*(am|pm)\b` at the current position. -/
def tryB (prev : Option Char) (l : List Char) : Option (Nat × Nat × Option AmPm) :=
  if bBefore prev then
    match l with
    | d1 :: d2 :: d3 :: rest3 =>
      if d1.isDigit && d2.isDigit && d3.isDigit then
        let four :=
          match rest3 with
          | d4 :: rest4 =>
            if d4.isDigit then
              (tailB rest4).map (fun ap =>
                (natOfDigits [d1, d2], natOfDigits [d3, d4], some ap))
            else none
          | [] => none
        match four with
        | some r => some r
        | none =>
          (tailB rest3).map (fun ap => (natOfDigits [d1], natOfDigits [d2, d3], some ap))
      else none
    | _ => none
  else none

/-- One attempted match of `\b(\d{1,2})\s*(am|pm)\b` at the current position. -/
def tryC (prev : Option Char) (l : List Char) : Option (Nat × Nat × Option AmPm) :=
  if bBefore prev then
    match l with
    | d1 :: rest1 =>
      if d1.isDigit then
        let two :=
          match rest1 with
          | d2 :: rest2 =>
            if d2.isDigit then
              (tailB rest2).map (fun ap => (natOfDigits [d1, d2], 0, some ap))
            else none
          | [] => none
        match two with
        | some r => some r
        | none => (tailB rest1).map (fun ap => (natOfDigits [d1], 0, some ap))
      else none
    | [] => none
  else none

/-- `re.search` driver: try a matcher at every position, left to right,
tracking the previous character for `\b`. -/
def reSearch (try1 : Option Char → List Char → Option α) :
    Option Char → List Char → Option α
  | prev, l =>
    match try1 prev l with
    | some r => some r
    | none =>
      match l with
      | [] => none
      | c :: rest => reSearch try1 (some c) rest

/-- The cascade of the three clock-time regexes (lines 89-105): the first one
that matches anywhere supplies (hour, minute, am/pm group). -/
def searchTime (t : List Char) : Option (Nat × Nat × Option AmPm) :=
  match reSearch tryA none t with
  | some r => some r
  | none =>
    match reSearch tryB none t with
    | some r => some r
    | none => reSearch tryC none t

/-- Lines 77-115.  `Except.error ()` models the uncaught `ValueError` raised by
`base.replace(hour=..., minute=...)` when the captured hour/minute is out of
range (e.g. `"today 99:30"`); the source has no handler for it anywhere on the
call path. -/
def _parse_natural_datetime (now : PyDateTime) (text : String) :
    Except Unit (Option PyDateTime) :=
  let t := pyLower text
  let base : Option PyDateTime :=
    if pyContains t "tomorrow" then some {now with day := now.day + 1}
    else if pyContains t "today" then some now
    else none
  match searchTime t.data with
  | none => .ok none        -- `if hour is None: return None`
  | some (h0, m, ap) =>
    let h :=
      match ap with
      | some .pm => if h0 ≠ 12 then h0 + 12 else h0
      | some .am => if h0 = 12 then 0 else h0
      | none => h0
    match base with
    | none => .ok none      -- `if not base: return None`
    | some b =>
      if h ≤ 23 ∧ m ≤ 59 then
        .ok (some {b with hour := h, minute := m, second := 0, micro := 0})
      else .error ()

/-! ### `_extract_booking_entities` (chat.py lines 117-152) -/

/-- Street/suburb/city record: the `address` dicts built by the source. -/
structure Addr where
  street : Option String := none
  suburb : Option String := none
  city : Option String := none
deriving DecidableEq, Repr

/-- Continuation `(?:\s+at\b|\s+on\b)` of the issue regex. -/
def contAtOn (l : List Char) : Bool :=
  let sp := l.takeWhile pySpace
  let rest := l.dropWhile pySpace
  sp ≠ [] &&
    ((['a', 't'].isPrefixOf rest && bAfter (rest.drop 2)) ||
     (['o', 'n'].isPrefixOf rest && bAfter (rest.drop 2)))

/-- Lazy group `(.+?)` followed by `(?:\s+at\b|\s+on\b|$)`: smallest capture of
at least one non-newline character whose continuation matches (`$` is end of
input). -/
def issueCapture1 (region : List Char) : Option (List Char) :=
  (List.range' 1 region.length).findSome? (fun n =>
    let cap := region.take n
    if cap.all (· ≠ '\n') && (contAtOn (region.drop n) || region.drop n = []) then
      some cap
    else none)

/-- One attempted match of `\bfor\s+(.+?)(?:\s+at\b|\s+on\b|$)` at the current
position.  `\s+` is greedy, so space splits are tried from longest to
shortest. -/
def tryFor (prev : Option Char) (l : List Char) : Option (List Char) :=
  if bBefore prev && ['f', 'o', 'r'].isPrefixOf l then
    let rest := l.drop 3
    let maxK := (rest.takeWhile pySpace).length
    if maxK = 0 then none
    else
      ((List.range maxK).map (fun i => maxK - i)).findSome? (fun k =>
        issueCapture1 (rest.drop k))
  else none

/-- One attempted match of the complaint-pattern regex
`(leak\w.*|broken[^.]*|not working[^.]*|clog\w[^.]*)` at the current position
(alternatives tried in source order; `.` stops at a newline, `[^.]` stops at a
period). -/
def tryComplaint (_prev : Option Char) (l : List Char) : Option (List Char) :=
  let tryLeak :=
    if ['l', 'e', 'a', 'k'].isPrefixOf l then
      match l.drop 4 with
      | w :: tail =>
        if wordChar w then some (['l', 'e', 'a', 'k', w] ++ tail.takeWhile (· ≠ '\n'))
        else none
      | [] => none
    else none
  let tryBroken :=
    if ['b', 'r', 'o', 'k', 'e', 'n'].isPrefixOf l then
      some (['b', 'r', 'o', 'k', 'e', 'n'] ++ (l.drop 6).takeWhile (· ≠ '.'))
    else none
  let tryNotWorking :=
    if "not working".data.isPrefixOf l then
      some ("not working".data ++ (l.drop 11).takeWhile (· ≠ '.'))
    else none
  let tryClog :=
    if ['c', 'l', 'o', 'g'].isPrefixOf l then
      match l.drop 4 with
      | w :: tail =>
        if wordChar w then some (['c', 'l', 'o', 'g', w] ++ tail.takeWhile (· ≠ '.'))
        else none
      | [] => none
    else none
  match tryLeak with
  | some r => some r
  | none =>
    match tryBroken with
    | some r => some r
    | none =>
      match tryNotWorking with
      | some r => some r
      | none => tryClog

/-- Character class `[\w\-]`. -/
def wordDash (c : Char) : Bool := wordChar c || c = '-'

/-- Character class `[, ]`. -/
def commaSpace (c : Char) : Bool := c = ',' || c = ' '

/-- Group `[A-Za-z][\w\-]+` (greedy; its character set is disjoint from
`[, ]`, so the maximal run is the only candidate). -/
def parseAddrWord (l : List Char) : Option (List Char × List Char) :=
  match l with
  | a :: r =>
    if a.isAlpha then
      let w := r.takeWhile wordDash
      if w ≠ [] then some (a :: w, r.drop w.length) else none
    else none
  | [] => none

/-- One attempted match of
`(\d+\s+[A-Za-z][\w\s\-]*)[, ]+([A-Za-z][\w\-]+)[, ]+([A-Za-z][\w\-]+)` at the
current position.  `\d+` and `\s+` never need to backtrack (their classes are
disjoint from what follows); only the star `[\w\s\-]*` does, from longest to
shortest. -/
def tryAddr (_prev : Option Char) (l : List Char) : Option (List Char × List Char × List Char) :=
  let digits := l.takeWhile Char.isDigit
  if digits = [] then none
  else
    let rest1 := l.drop digits.length
    let spaces := rest1.takeWhile pySpace
    if spaces = [] then none
    else
      match rest1.drop spaces.length with
      | c :: rest3 =>
        if c.isAlpha then
          let starMax := (rest3.takeWhile (fun ch => wordChar ch || pySpace ch || ch = '-')).length
          ((List.range (starMax + 1)).map (fun i => starMax - i)).findSome? (fun starLen =>
            let tail := rest3.drop starLen
            let sep1 := tail.takeWhile commaSpace
            if sep1 = [] then none
            else
              match parseAddrWord (tail.drop sep1.length) with
              | some (g2, after2) =>
                let sep2 := after2.takeWhile commaSpace
                if sep2 = [] then none
                else
                  match parseAddrWord (after2.drop sep2.length) with
                  | some (g3, _) =>
                    some (digits ++ spaces ++ [c] ++ rest3.take starLen, g2, g3)
                  | none => none
              | none => none)
        else none
      | [] => none

/-- Partial booking record extracted from one message (the `result` dict of
`_extract_booking_entities`; a `none` field is an absent key). -/
structure Extracted where
  service : Option String := none
  issue : Option String := none
  date_time : Option String := none
  address : Option Addr := none
deriving DecidableEq, Repr

/-- Python truthiness of an `Extracted` dict (nonempty iff some key present). -/
def Extracted.truthy (e : Extracted) : Bool :=
  e.service.isSome || e.issue.isSome || e.date_time.isSome || e.address.isSome

/-- Lines 117-152.  `isoOfDT` is `datetime.isoformat` (an injective formatting
oracle); the `Except` propagates the `ValueError` of
`_parse_natural_datetime`. -/
def _extract_booking_entities (now : PyDateTime) (isoOfDT : PyDateTime → String)
    (text : String) (user_location : Option String) :
    Except Unit (Extracted × List String) :=
  let t := text
  let tl := pyLower t
  let services := ["plumber", "electrician", "cleaner", "painter", "gardener", "handyman"]
  let service := services.find? (fun s => pyContains tl s)
  match _parse_natural_datetime now tl with
  | .error () => .error ()
  | .ok dt =>
    let issue : Option String :=
      match reSearch tryFor none tl.data with
      | some cap => some (pyStrip ⟨cap⟩)
      | none => (reSearch tryComplaint none tl.data).map (fun cap => pyStrip ⟨cap⟩)
    let address : Option Addr :=
      match reSearch tryAddr none t.data with
      | some (g1, g2, g3) =>
        some ⟨some (pyStrip ⟨g1⟩), some (pyStrip ⟨g2⟩), some (pyStrip ⟨g3⟩)⟩
      | none =>
        if truthyS user_location then
          let parts := ((splitOnChar ',' (user_location.getD "")).map pyStrip).filter (· ≠ "")
          if parts.length ≥ 2 then
            some ⟨none, parts.get? (parts.length - 2), parts.get? (parts.length - 1)⟩
          else if parts.length = 1 then some ⟨none, none, parts.get? 0⟩
          else none
        else none
    let result : Extracted :=
      { service := service,                  -- `if service:` (vocabulary entries are nonempty)
        issue := if truthyS issue then issue else none,   -- `if issue:`
        date_time := dt.map isoOfDT,         -- `if dt:` (datetimes are truthy)
        address := address }                 -- `if address:` (dicts with keys are truthy)
    let required := ["service", "issue", "date_time", "address"]
    let missing := required.filter (fun k =>
      if k = "service" then result.service.isNone
      else if k = "issue" then result.issue.isNone
      else if k = "date_time" then result.date_time.isNone
      else result.address.isNone)
    .ok (result, missing)

/-! ### Data model (MongoDB documents as records, collections as lists) -/

/-- One entry of a conversation's `messages` array (`content` is a single-text
block in every write the source performs). -/
structure Msg where
  role : String
  text : String
deriving DecidableEq, Repr

/-- A user's saved address (entries of the optional `addresses` array). -/
structure UAddr where
  street : Option String := none
  suburb : Option String := none
  city : Option String := none
  is_default : Bool := false
deriving DecidableEq, Repr

/-- `users` collection document.  `coords` stores the GeoJSON point as its
`(lng, lat)` coordinate pair. -/
structure UserDoc where
  _id : Nat
  phone : String
  name : Option String := none
  location : Option String := none
  coords : Option (Int × Int) := none
  policy_agreed : Bool := false
  pending_field : Option String := none
  addresses : Option (List UAddr) := none
deriving DecidableEq, Repr

/-- `providers` collection document.  `distance_m` is the `$geoNear` annotation
(absent on stored documents, present on geo query results); `rating` is the
optional numeric rating.  ObjectIds are modelled as `Nat` drawn from the
database counter (they are always truthy in Python). -/
structure ProviderDoc where
  _id : Nat
  phone : String
  name : Option String := none
  service_type : Option String := none
  coverage : Option String := none
  coverage_coords : Option (Int × Int) := none
  active : Bool := false
  policy_agreed : Bool := false
  pending_field : Option String := none
  rating : Option Rat := none
  distance_m : Option Int := none
deriving DecidableEq, Repr

/-- `bookings` collection document.  `start`/`end` are instants on the abstract
integer timeline; `none` models a stored BSON `null`. -/
structure BookingDoc where
  _id : Nat
  user_id : Option String := none
  provider_id : Option String := none
  start : Option Int := none
  end_ : Option Int := none
  notes : Option String := none
  service : Option String := none
  address : Option Addr := none
  created_at : Option Int := none
deriving DecidableEq, Repr

/-- Booking draft embedded in a conversation (each `none` field is an absent
key; every key the source writes holds a truthy value). -/
structure Draft where
  service : Option String := none
  issue : Option String := none
  date_time : Option String := none
  address : Option Addr := none
  provider_id : Option String := none
  provider_name : Option String := none
deriving DecidableEq, Repr

/-- Python truthiness of a draft dict. -/
def Draft.truthy (d : Draft) : Bool :=
  d.service.isSome || d.issue.isSome || d.date_time.isSome || d.address.isSome ||
    d.provider_id.isSome || d.provider_name.isSome

/-- One stored provider option (the dicts built at chat.py lines 822-830). -/
structure POpt where
  _id : Nat
  name : Option String := none
  coverage : Option String := none
  distance_m : Option Int := none
  eta_min : Option Int := none
  rating : Option Rat := none
  available : Bool := true
deriving DecidableEq, Repr

/-- `conversations` collection document. -/
structure ConvDoc where
  session_id : String
  phone : Option String := none
  status : String := "open"
  started_at : Option String := none
  ended_at : Option String := none
  messages : List Msg := []
  booking_draft : Option Draft := none
  booking_state : Option String := none
  provider_options : Option (List POpt) := none
  address_options : Option (List Addr) := none
deriving DecidableEq, Repr

/-- The four collections plus the ObjectId counter. -/
structure DB where
  users : List UserDoc := []
  providers : List ProviderDoc := []
  bookings : List BookingDoc := []
  conversations : List ConvDoc := []
  nextId : Nat := 0
deriving DecidableEq, Repr

/-- `update_one`: rewrite the first document matching the filter. -/
def updateFirst (p : α → Bool) (f : α → α) : List α → List α
  | [] => []
  | x :: xs => if p x then f x :: xs else x :: updateFirst p f xs

def DB.findConv (db : DB) (cid : String) : Option ConvDoc :=
  db.conversations.find? (fun c => c.session_id = cid)

def DB.updConv (db : DB) (cid : String) (f : ConvDoc → ConvDoc) : DB :=
  { db with conversations := updateFirst (fun c => c.session_id = cid) f db.conversations }

/-- `$push` one message onto a conversation's log. -/
def DB.pushMsg (db : DB) (cid role text : String) : DB :=
  db.updConv cid (fun c => { c with messages := c.messages ++ [⟨role, text⟩] })

def DB.findUser (db : DB) (ph : String) : Option UserDoc :=
  db.users.find? (fun u => u.phone = ph)

def DB.updUser (db : DB) (uid : Nat) (f : UserDoc → UserDoc) : DB :=
  { db with users := updateFirst (fun u => u._id = uid) f db.users }

def DB.findProv (db : DB) (ph : String) : Option ProviderDoc :=
  db.providers.find? (fun p => p.phone = ph)

def DB.updProvById (db : DB) (pid : Nat) (f : ProviderDoc → ProviderDoc) : DB :=
  { db with providers := updateFirst (fun p => p._id = pid) f db.providers }

def DB.updProvByPhone (db : DB) (ph : String) (f : ProviderDoc → ProviderDoc) : DB :=
  { db with providers := updateFirst (fun p => p.phone = ph) f db.providers }

/-- `insert_one` into `users` (append in natural order, draw a fresh id). -/
def DB.insertUser (db : DB) (mk : Nat → UserDoc) : DB :=
  { db with users := db.users ++ [mk db.nextId], nextId := db.nextId + 1 }

def DB.insertProv (db : DB) (mk : Nat → ProviderDoc) : DB × Nat :=
  ({ db with providers := db.providers ++ [mk db.nextId], nextId := db.nextId + 1 }, db.nextId)

def DB.insertBooking (db : DB) (mk : Nat → BookingDoc) : DB :=
  { db with bookings := db.bookings ++ [mk db.nextId], nextId := db.nextId + 1 }

def DB.insertConv (db : DB) (c : ConvDoc) : DB :=
  { db with conversations := db.conversations ++ [c] }

/-! ### External collaborators -/

/-- Oracles for the external collaborators and the per-turn environment
(`datetime.utcnow` is sampled once per turn; each oracle returning `Option`
uses `none` for "failed / raised / returned nothing"). -/
structure Env where
  /-- `datetime.utcnow()` as a calendar datetime (used by the parser). -/
  nowDT : PyDateTime
  /-- `datetime.utcnow().isoformat()` (stored in `started_at`/`ended_at`). -/
  nowIso : String
  /-- `datetime.utcnow()` as an instant (stored in `created_at`). -/
  nowInstant : Int
  /-- `str(uuid.uuid4())`. -/
  uuid : String
  /-- `reverse_geocode(lat, lng)`, `none` when it returns nothing. -/
  revGeo : Int → Int → Option String
  /-- `converse(...)` followed by `extract_text`: arguments are messages,
  system prompt, model id, max_tokens, temperature; `none` means the call
  raised or produced no text object. -/
  converse : List Msg → String → String → Nat → Rat → Option String
  /-- `datetime.fromisoformat`, `none` on `ValueError`. -/
  fromIso : String → Option Int
  /-- `datetime.isoformat` on parsed datetimes (injective formatter). -/
  isoOfDT : PyDateTime → String
  /-- `strftime('%Y-%m-%d %I:%M %p')` display formatting of an instant. -/
  fmtDT : Int → String
  /-- The `$geoNear` aggregation: given `(lng, lat)`, the query's service type
  and the max distance, the documents it returns (already `distance_m`
  annotated, nearest first); the model re-applies the embedded
  `active`/`service_type` query and the `$limit`. -/
  geoNear : Int → Int → String → Int → List ProviderDoc
  USE_LOCAL_LLM : Bool
  POLICY_URL : String
  PROVIDER_POLICY_URL : String
  MODEL_ID : String
  FAST_MODEL_ID : String

/-- chat.py lines 16-27. -/
def SYSTEM_PROMPT : String :=
  "You are Hustlr, a friendly, concise WhatsApp booking assistant. " ++
  "Always sound warm and professional with brief, helpful replies and tasteful emojis when appropriate. " ++
  "Goals: help with local service bookings, provider onboarding, and simple confirmations. " ++
  "Policy: never invent actions you did not perform; if you proposed a time or booking, clearly state it\x27s tentative unless confirmed by the system. " ++
  "When collecting registration info, ask one question at a time and keep it short. " ++
  "For all conversations: reply naturally in plain language (never mention internal fields like provider_id). " ++
  "Extract service, task (issue), and date/time when the user provides them; if something is missing, ask for it briefly and kindly. " ++
  "Use the user\x27s saved/default address given in context if available; do not ask for address if one is provided in context. " ++
  "When listing choices (like providers or addresses), keep the numbering provided in the context and ask the user to reply with a number or say \x27recommend\x27. " ++
  "When a booking is finalized and confirmed, include the token CONFIRMED in the reply."

/-! ### Small chat.py helpers -/

/-- chat.py lines 29-45. -/
def local_reply (text : String) (has_location : Bool := false) : String :=
  let t := pyLower text
  let intents := ["plumber", "cleaner", "electrician", "gardener", "painter"]
  if intents.any (fun w => pyContains t w) then
    let need_loc := !has_location &&
      !([" near ", " location", " address", " in "].any (fun w => pyContains t w))
    let need_time := !([" today", " tomorrow", " am", " pm", ":", " at "].any (fun w => pyContains t w))
    let prompts := (if need_loc then ["your location"] else []) ++
      (if need_time then ["preferred date/time"] else [])
    if prompts ≠ [] then
      if prompts.length = 2 then "Got it. Please share your location and preferred date/time."
      else "Got it. Please share " ++ prompts.headD "" ++ "."
    else "Great. Any budget range I should consider before I suggest options?"
  else "How can I help with booking today? Share the service, location, and preferred time."

/-- chat.py lines 47-55. -/
def _variants (mid : String) : List String :=
  if mid = "" then []
  else if "-v1:0".data.isSuffixOf mid.data then [mid, ⟨mid.data.take (mid.data.length - 5)⟩]
  else [mid, mid ++ "-v1:0"]

/-- De-duplicate model candidates preserving order, dropping falsy ids (the
`seen` loops at lines 262-265 and 888-893). -/
def dedupModels (l : List String) : List String :=
  l.foldl (fun acc m => if m ≠ "" && !acc.contains m then acc ++ [m] else acc) []

/-- A `for mid in model_candidates: try converse... if reply: return reply`
loop: first candidate whose call succeeds with truthy text. -/
def tryModels (env : Env) (mids : List String) (msgs : List Msg) (maxTokens : Nat)
    (temp : Rat) : Option String :=
  mids.findSome? (fun mid =>
    match env.converse msgs SYSTEM_PROMPT mid maxTokens temp with
    | some r => if r ≠ "" then some r else none
    | none => none)

/-- chat.py lines 257-278. -/
def _llm_natural_reply (env : Env) (context_text : String) (fast : Bool := true)
    (max_tokens : Nat := 180) : String :=
  let mc := if fast then _variants env.FAST_MODEL_ID
    else _variants env.MODEL_ID ++ _variants "anthropic.claude-3-haiku-20240307"
  let cands := dedupModels mc
  match tryModels env cands [⟨"user", context_text⟩] max_tokens
      (if fast then mkRat 3 10 else mkRat 5 10) with
  | some r => r
  | none => "Could you share a bit more so I can help? For example, the task and a suitable time."

/-- chat.py lines 289-313: mark the conversation closed (transcript printing is
I/O only and not modelled). -/
def _log_and_close (env : Env) (db : DB) (conv_id : String) : DB :=
  match db.findConv conv_id with
  | none => db
  | some _ => db.updConv conv_id (fun c => { c with status := "closed", ended_at := some env.nowIso })

/-- chat.py lines 154-163: the stored GeoJSON coordinate pair `(lng, lat)`. -/
def _get_user_coords (u : Option UserDoc) : Option (Int × Int) :=
  match u with
  | none => none
  | some u => u.coords

/-- Round-half-to-even of the rational `n / d` (`d > 0`): Python
`int(round(x))`. -/
def roundHalfEven (n d : Int) : Int :=
  let f := n.fdiv d
  let r2 := 2 * (n - f * d)
  if r2 < d then f else if r2 > d then f + 1 else if f % 2 = 0 then f else f + 1

/-- chat.py lines 165-170: ETA in whole minutes at 35 km/h, i.e.
`round(d / 1000 / 35 * 60)` computed on the exact rational `d*60/35000`. -/
def _eta_from_meters (distance_m : Option Int) : Option Int :=
  match distance_m with
  | none => none
  | some d => if d ≤ 0 then none else some (roundHalfEven (d * 60) 35000)

/-- chat.py lines 172-190. -/
def _get_default_address (u : Option UserDoc) : Option Addr :=
  match u with
  | none => none
  | some u =>
    match u.addresses with
    | some addrs =>
      if addrs ≠ [] then
        let def_addr :=
          match addrs.find? (fun a => a.is_default) with
          | some a => some a
          | none => addrs.head?
        match def_addr with
        | some a =>
          if truthyS a.street || truthyS a.suburb || truthyS a.city then
            some ⟨a.street, a.suburb, a.city⟩
          else none
        | none => none
      else none
    | none => none

/-! ### The booking conflict test (chat.py 192-201 and bookings.py 15-28) -/

/-- The conflict filter of `_is_provider_available` (chat.py lines 195-200):
`provider_id` equality plus `start < end_dt AND end > start_dt`.  A stored
`null` endpoint never satisfies `$lt`/`$gt` against a datetime (BSON type
bracketing). -/
def chatConflictDoc (b : BookingDoc) (pid : String) (rs re : Int) : Bool :=
  b.provider_id = some pid &&
    (match b.start, b.end_ with
     | some s, some e => decide (s < re) && decide (e > rs)
     | _, _ => false)

/-- chat.py lines 192-201. -/
def _is_provider_available (db : DB) (provider_id : Option String)
    (start_dt end_dt : Option Int) : Bool :=
  if !truthyS provider_id || start_dt.isNone || end_dt.isNone then true
  else
    (db.bookings.find? (fun b =>
      chatConflictDoc b (provider_id.getD "") (start_dt.getD 0) (end_dt.getD 0))).isNone

/-- The conflict filter of `create_booking` (bookings.py lines 18-23), kept as
a separate definition so that its agreement with the conversational one is a
theorem rather than a definitional identity. -/
def apiConflictDoc (b : BookingDoc) (pid : String) (rs re : Int) : Bool :=
  b.provider_id = some pid &&
    (match b.start, b.end_ with
     | some s, some e => decide (s < re) && decide (e > rs)
     | _, _ => false)

/-- bookings.py `BookingIn` (start/end are required datetimes). -/
structure BookingIn where
  user_id : String
  provider_id : String
  start : Int
  end_ : Int
  notes : Option String := none
deriving DecidableEq, Repr

/-- bookings.py lines 15-28: `Except.error 409` is the HTTP 409 "Time slot
already booked" rejection, `Except.ok` carries the new database and the
created id. -/
def create_booking (db : DB) (in_ : BookingIn) : Except Nat (DB × String) :=
  match db.bookings.find? (fun b => apiConflictDoc b in_.provider_id in_.start in_.end_) with
  | some _ => .error 409
  | none =>
    let doc : BookingDoc :=
      { _id := db.nextId, user_id := some in_.user_id, provider_id := some in_.provider_id,
        start := some in_.start, end_ := some in_.end_, notes := in_.notes }
    .ok ({ db with bookings := db.bookings ++ [doc], nextId := db.nextId + 1 }, toString db.nextId)

/-! ### The provider ranker (chat.py lines 203-255) -/

/-- Sort-key position of the `available` flag (`0 if available else 1`). -/
def availKey (b : Bool) : Nat := if b then 0 else 1

/-- Distance component of the sort key: an unknown distance is
`float('inf')` and sorts after every known one. -/
def distLE : Option Int → Option Int → Bool
  | some a, some b => a ≤ b
  | some _, none => true
  | none, some _ => false
  | none, none => true

/-- A provider annotated by the ranker (`{**pv, "distance_m":…, "eta_min":…,
"rating":…, "available":…}`). -/
structure Enriched where
  doc : ProviderDoc
  distance_m : Option Int := none
  eta_min : Option Int := none
  rating : Rat := 0
  available : Bool := true
deriving DecidableEq, Repr

/-- Lexicographic `≤` on the sort key
`(0 if available else 1, -(rating or 0), distance_m or inf)` of lines
248-253. -/
def rankLE (p q : Enriched) : Bool :=
  if availKey p.available ≠ availKey q.available then
    decide (availKey p.available < availKey q.available)
  else if p.rating ≠ q.rating then decide (q.rating < p.rating)
  else distLE p.distance_m q.distance_m

/-- `enriched.sort(key=sort_key); return enriched[:5]`.  Python's sort is
stable; `List.mergeSort` is the stable sort for the same total preorder, so the
two agree elementwise. -/
def rankEnriched (l : List Enriched) : List Enriched :=
  (l.mergeSort rankLE).take 5

/-- The provider query `{"active": True, "service_type": service}`. -/
def qryMatch (svc : String) (p : ProviderDoc) : Bool :=
  p.active && p.service_type = some svc

/-- chat.py lines 203-255. -/
def _find_nearby_providers (env : Env) (db : DB) (service : Option String)
    (u : Option UserDoc) (desired_start : Option Int := none)
    (slot_minutes : Int := 60) (max_distance_m : Int := 30000) : List Enriched :=
  if !truthyS service then []
  else
    let svc := service.getD ""
    let results :=
      match _get_user_coords u with
      | some (lng, lat) =>
        let geo := ((env.geoNear lng lat svc max_distance_m).filter (qryMatch svc)).take 10
        if geo = [] then (db.providers.filter (qryMatch svc)).take 10 else geo
      | none => (db.providers.filter (qryMatch svc)).take 10
    let desired_end := desired_start.map (· + slot_minutes)
    let enriched := results.map (fun pv =>
      let dist := pv.distance_m
      let available :=
        match desired_start with
        | some _ => _is_provider_available db (some (toString pv._id)) desired_start desired_end
        | none => true    -- `if desired_start and prov_id:` (ObjectIds are truthy)
      { doc := pv, distance_m := dist, eta_min := _eta_from_meters dist,
        rating := pv.rating.getD 0, available := available })
    rankEnriched enriched

/-! ### The chat endpoint (chat.py lines 315-919)

The handler is split into the stages the source's early-`return`s delimit:
registration (lines 361-527), provider onboarding (lines 528-602) and booking
negotiation (lines 604-874), followed by the LLM fallback tail (lines
876-919).  Each stage returns either the final `(db, reply)` of the turn or
the database to continue with.  A stage result of `crash` is an uncaught
Python exception: the turn aborts (HTTP 500, no reply, no assistant message)
with the database writes made so far kept. -/

/-- Request body `ChatIn` (pydantic). -/
structure ChatIn where
  session_id : String
  user_id : String
  message : String
  lat : Option Int := none
  lng : Option Int := none
  fast : Option Bool := some false
deriving DecidableEq, Repr

def DB.findUserById (db : DB) (uid : Nat) : Option UserDoc :=
  db.users.find? (fun u => u._id = uid)

def DB.findProvById (db : DB) (pid : Nat) : Option ProviderDoc :=
  db.providers.find? (fun p => p._id = pid)

/-- Python `f"{lat},{lng}"` fallback label for a failed reverse geocode. -/
def coordLabel (lat lng : Int) : String :=
  toString lat ++ "," ++ toString lng

/-- `s.isoformat() if hasattr(s, 'isoformat') else str(s)` on an instant
(display-only rendering of a stored start/end). -/
def instIso : Option Int → String
  | some i => toString i
  | none => "None"

/-- Ascending Mongo sort key on `start` (`null` sorts before numbers). -/
def startLE (a b : BookingDoc) : Bool :=
  match a.start, b.start with
  | none, _ => true
  | some _, none => false
  | some x, some y => x ≤ y

/-- Python `f"{b}"` on a bool. -/
def pyBool (b : Bool) : String := if b then "True" else "False"

/-- Outcome of the registration stage. -/
inductive RegOut where
  | ret (db : DB) (reply : String)
  | cont (db : DB) (user_location : Option String) (missing : List String)
deriving Repr

/-- Lines 362-366: get-or-create the user document for this phone. -/
def regEnsureUser (db : DB) (ph : String) : DB × UserDoc :=
  match db.findUser ph with
  | some u => (db, u)
  | none =>
    let db := db.insertUser (fun nid => { _id := nid, phone := ph })
    (db, (db.findUser ph).getD { _id := 0, phone := ph })

/-- Lines 367-381: capture coordinates / backfill the location label. -/
def regCoords (env : Env) (db : DB) (in_ : ChatIn) (u : UserDoc) : DB × UserDoc :=
  let has_coords := in_.lat.isSome && in_.lng.isSome
  if has_coords && !truthyS u.location then
    let lat := in_.lat.getD 0
    let lng := in_.lng.getD 0
    let label := orS (env.revGeo lat lng) (coordLabel lat lng)
    let f : UserDoc → UserDoc := fun v =>
      { v with coords := some (lng, lat), location := some label }
    let db := db.updUser u._id f
    (db, (db.findUserById u._id).getD (f u))
  else if !has_coords && !truthyS u.location then
    match u.coords with
    | some (lng, lat) =>
      let label := orS (env.revGeo lat lng) (coordLabel lat lng)
      let f : UserDoc → UserDoc := fun v => { v with location := some label }
      let db := db.updUser u._id f
      (db, (db.findUserById u._id).getD (f u))
    | none => (db, u)
  else (db, u)

/-- Lines 382-403: consume a pending registration answer (`inr` is the early
return of the policy-completion branch). -/
def regPending (env : Env) (db : DB) (in_ : ChatIn) (u : UserDoc) (conv_id : String) :
    (DB × UserDoc) ⊕ (DB × String) :=
  let has_coords := in_.lat.isSome && in_.lng.isSome
  let pending := u.pending_field
  if pending = some "name" && pyStrip in_.message ≠ "" then
    let f : UserDoc → UserDoc := fun v =>
      { v with name := some (pyStrip in_.message), pending_field := none }
    let db := db.updUser u._id f
    .inl (db, (db.findUserById u._id).getD (f u))
  else if pending = some "location" && (has_coords || pyStrip in_.message ≠ "") then
    let f : UserDoc → UserDoc :=
      if has_coords then
        let lat := in_.lat.getD 0
        let lng := in_.lng.getD 0
        let label := orS (env.revGeo lat lng) (coordLabel lat lng)
        fun v => { v with coords := some (lng, lat), location := some label,
                          pending_field := none }
      else fun v => { v with location := some (pyStrip in_.message), pending_field := none }
    let db := db.updUser u._id f
    .inl (db, (db.findUserById u._id).getD (f u))
  else if pending = some "policy" then
    let ans := pyLower (pyStrip in_.message)
    if ans = "yes" || ans = "y" || ans = "agree" || ans = "i agree" then
      let db := db.updUser u._id (fun v => { v with policy_agreed := true, pending_field := none })
      let reg_done := "✅ Thank you! Your registration is now complete. How can I assist you today?"
      let db := db.pushMsg conv_id "assistant" reg_done
      let db := _log_and_close env db conv_id
      .inr (db, reg_done)
    else .inl (db, (db.findUserById u._id).getD u)
  else .inl (db, u)

/-- Lines 406-479: slash commands (`none` = not a recognized command, fall
through). -/
def regCommands (env : Env) (db : DB) (in_ : ChatIn) (u : UserDoc) (ph conv_id : String) :
    Option (DB × String) :=
  let lower_msg := pyLower (pyStrip in_.message)
  if pyStarts lower_msg "/" then
      let cmd := (splitWs lower_msg).headD ""
      if cmd = "/reset" then
        let db := db.updUser u._id (fun v =>
          { v with name := none, location := none, policy_agreed := false,
                   pending_field := none, coords := none })
        let db := db.updProvByPhone ph (fun p => { p with pending_field := none })
        let pr := "Your profile has been reset. Let\x27s start over — what\x27s your full name?"
        some (db.pushMsg conv_id "assistant" pr, pr)
      else if cmd = "/end" then
        let pr := "Conversation closed. Send a new message to start a fresh conversation."
        let db := db.pushMsg conv_id "assistant" pr
        some (_log_and_close env db conv_id, pr)
      else if cmd = "/profile" then
        let u2 := db.findUser ph
        let pr := "Profile\nName: " ++ orS (u2.bind (·.name)) "-" ++
          "\nLocation: " ++ orS (u2.bind (·.location)) "-" ++
          "\nPolicy agreed: " ++ (if (u2.map (·.policy_agreed)).getD false then "Yes" else "No") ++
          "\nPhone: " ++ ph
        some (db.pushMsg conv_id "assistant" pr, pr)
      else if pyStarts lower_msg "/provider status" then
        let pr :=
          match db.findProv ph with
          | none => "No provider profile found. Say \x27register as a provider\x27 to start."
          | some pdoc =>
            "Provider Status\nName: " ++ pdoc.name.getD "-" ++
            "\nService: " ++ pdoc.service_type.getD "-" ++
            "\nCoverage: " ++ pdoc.coverage.getD "-" ++
            "\nActive: " ++ (if pdoc.active then "Yes" else "No") ++
            "\nPolicy agreed: " ++ (if pdoc.policy_agreed then "Yes" else "No") ++
            "\nProvider ID: " ++ toString pdoc._id
        some (db.pushMsg conv_id "assistant" pr, pr)
      else if cmd = "/bookings" then
        let userItems := ((db.bookings.filter (fun (b : BookingDoc) => b.user_id = some ph)).mergeSort startLE).take 5
        let provItems :=
          match db.findProv ph with
          | some pdoc =>
            ((db.bookings.filter (fun (b : BookingDoc) => b.provider_id = some (toString pdoc._id))).mergeSort startLE).take 5
          | none => []
        let items : List (Bool × BookingDoc) :=
          userItems.map (true, ·) ++ provItems.map (false, ·)
        let pr :=
          if items = [] then "No upcoming bookings found."
          else
            let lines := "Upcoming bookings:" :: (items.take 5).map (fun it =>
              if it.1 then
                "You booked provider " ++ pyRepr it.2.provider_id ++ " from " ++
                  instIso it.2.start ++ " to " ++ instIso it.2.end_
              else
                "Client " ++ pyRepr it.2.user_id ++ " from " ++
                  instIso it.2.start ++ " to " ++ instIso it.2.end_)
            String.intercalate "\n" lines
        some (db.pushMsg conv_id "assistant" pr, pr)
      else none
    else none

/-- Lines 481-527: request the first missing registration field, or fall
through to the rest of the handler. -/
def regMissing (env : Env) (db : DB) (u : UserDoc) (conv_id : String)
    (user_location : Option String) : RegOut :=
  let missing :=
    (if !truthyS u.name then ["name"] else []) ++
    (if !(truthyS u.location || u.coords.isSome) then ["location"] else []) ++
    (if !u.policy_agreed then ["policy"] else [])
  if missing ≠ [] then
    let next_field := missing.headD ""
    let prompt_text :=
      "The user is registering. Their information so far:\nName: " ++ pyRepr u.name ++
      "\nLocation: " ++ pyRepr u.location ++
      "\nPolicy agreed: " ++ pyBool u.policy_agreed ++
      "\n\nAsk the user for the next missing field (" ++ next_field ++
      ") in a friendly, brief way. Include a short hint with the policy URL when asking for policy. Customer policy: " ++
      env.POLICY_URL ++ ". Respond only with the question to send to the user."
    let fallback :=
      if next_field = "name" then "What\x27s your full name?"
      else if next_field = "location" then "Where are you located?"
      else "Do you agree to our policy? (yes/no) " ++ env.POLICY_URL
    let reg_reply :=
      match env.converse [⟨"user", prompt_text⟩] SYSTEM_PROMPT env.FAST_MODEL_ID 80 (mkRat 2 10) with
      | some r => if r ≠ "" then r else fallback
      | none => fallback
    let db := db.updUser u._id (fun v => { v with pending_field := some next_field })
    let db := db.pushMsg conv_id "assistant" reg_reply
    .ret db reg_reply
  else .cont db user_location missing

/-- chat.py lines 361-527: the registration stage, composed of its four
source blocks. -/
def regStage (env : Env) (db : DB) (in_ : ChatIn) (ph conv_id : String) : RegOut :=
  let (db, u) := regEnsureUser db ph
  let (db, u) := regCoords env db in_ u
  match regPending env db in_ u conv_id with
  | .inr (db, reply) => .ret db reply
  | .inl (db, u) =>
    let user_location := u.location
    match regCommands env db in_ u ph conv_id with
    | some (db, pr) => .ret db pr
    | none => regMissing env db u conv_id user_location

/-- Outcome of the provider-onboarding stage. -/
inductive ProvOut where
  | ret (db : DB) (reply : String)
  | cont (db : DB)
deriving Repr

/-- chat.py lines 528-602: provider onboarding state machine. -/
def provStage (env : Env) (db : DB) (in_ : ChatIn) (ph conv_id : String) : ProvOut :=
  let lower_msg := pyLower (pyStrip in_.message)
  let start_provider := pyContains lower_msg "register" && pyContains lower_msg "provider"
  let has_coords := in_.lat.isSome && in_.lng.isSome
  match db.findProv ph with
  | none =>
    if start_provider then
      let (db, _) := db.insertProv (fun nid =>
        { _id := nid, phone := ph, active := false, policy_agreed := false,
          pending_field := some "name" })
      let pr := "Great! Let\x27s get you registered as a service provider. What\x27s your full name?"
      .ret (db.pushMsg conv_id "assistant" pr) pr
    else .cont db
  | some p =>
    let pending_p := p.pending_field
    if pending_p = some "name" && pyStrip in_.message ≠ "" then
      let db := db.updProvById p._id (fun v =>
        { v with name := some (pyStrip in_.message), pending_field := some "service_type" })
      let pr := "Thanks! What type of service do you provide? (e.g., plumbing, electrical, cleaning)"
      .ret (db.pushMsg conv_id "assistant" pr) pr
    else if pending_p = some "service_type" && pyStrip in_.message ≠ "" then
      let db := db.updProvById p._id (fun v => { v with service_type := some (pyStrip in_.message) })
      let db := db.updProvById p._id (fun v => { v with pending_field := some "coverage" })
      let pr := "Where is your service located or what area do you cover? (send city/suburb or share current location). Provider policy: " ++
        env.PROVIDER_POLICY_URL
      .ret (db.pushMsg conv_id "assistant" pr) pr
    else if pending_p = some "coverage" && (has_coords || pyStrip in_.message ≠ "") then
      let db :=
        if has_coords then
          let lat := in_.lat.getD 0
          let lng := in_.lng.getD 0
          let label := orS (env.revGeo lat lng) (coordLabel lat lng)
          db.updProvById p._id (fun v =>
            { v with coverage := some label, coverage_coords := some (lng, lat),
                     pending_field := some "policy" })
        else
          db.updProvById p._id (fun v =>
            { v with coverage := some (pyStrip in_.message), pending_field := some "policy" })
      let pr := "Do you agree to our service provider policy and terms? (yes/no)"
      .ret (db.pushMsg conv_id "assistant" pr) pr
    else if pending_p = some "policy" then
      if lower_msg = "yes" || lower_msg = "y" || lower_msg = "agree" || lower_msg = "i agree" then
        let db := db.updProvById p._id (fun v =>
          { v with policy_agreed := true, pending_field := some "activate" })
        let p2 := (db.findProvById p._id).getD p
        let pr := "✅ Thank you! You\x27re now registered as a service provider.\nProvider Name: " ++
          p2.name.getD "" ++ "\nService Type: " ++ p2.service_type.getD "" ++
          "\nCoverage: " ++ p2.coverage.getD "" ++ "\nPolicy Agreed: Yes\nProvider ID: " ++
          toString p2._id ++
          "\n\nWould you like to go live and start receiving booking requests now? (yes/no)"
        .ret (db.pushMsg conv_id "assistant" pr) pr
      else
        let pr := "You need to agree to the provider policy to continue. Do you agree? (yes/no)"
        .ret (db.pushMsg conv_id "assistant" pr) pr
    else if pending_p = some "activate" then
      if lower_msg = "yes" || lower_msg = "y" then
        let db := db.updProvById p._id (fun v => { v with active := true, pending_field := none })
        let pr := "Fantastic! 🎉 You are now live as a provider. You\x27ll receive booking requests here."
        let db := db.pushMsg conv_id "assistant" pr
        .ret (_log_and_close env db conv_id) pr
      else if lower_msg = "no" || lower_msg = "n" then
        let db := db.updProvById p._id (fun v => { v with active := false, pending_field := none })
        let pr := "No problem. You\x27re registered but not live. Say \x27go live\x27 anytime to start receiving requests."
        let db := db.pushMsg conv_id "assistant" pr
        .ret (_log_and_close env db conv_id) pr
      else if pyContains lower_msg "go live" then
        let db := db.updProvById p._id (fun v => { v with active := true, pending_field := none })
        let pr := "You\x27re now live and ready to receive bookings!"
        let db := db.pushMsg conv_id "assistant" pr
        .ret (_log_and_close env db conv_id) pr
      else .cont db
    else .cont db

/-! ### Booking negotiation (chat.py lines 604-874) -/

/-- The numeric-selection regex `\b([1-9])\b` (one attempt at the current
position). -/
def trySel (prev : Option Char) (l : List Char) : Option Nat :=
  if bBefore prev then
    match l with
    | c :: rest =>
      if '1' ≤ c && c ≤ '9' && bAfter rest then some (c.toNat - '0'.toNat) else none
    | [] => none
  else none

/-- `", ".join([p for p in [street, suburb, city] if p])`. -/
def joinAddr (a : Addr) : String :=
  String.intercalate ", " (([a.street, a.suburb, a.city].filterMap id).filter (· ≠ ""))

/-- The draft-merge loop (lines 758-761): adopt an extracted value only when it
is truthy and the draft's value is absent or falsy. -/
def mergeDraft (d : Draft) (e : Extracted) : Draft :=
  { d with
    service := if truthyS e.service && !truthyS d.service then e.service else d.service,
    issue := if truthyS e.issue && !truthyS d.issue then e.issue else d.issue,
    date_time := if truthyS e.date_time && !truthyS d.date_time then e.date_time else d.date_time,
    address := if e.address.isSome && d.address.isNone then e.address else d.address }

/-- `db.providers.distinct("service_type")` filtered to truthy strings (line
765): distinct values in first-appearance order. -/
def svcDistinct (provs : List ProviderDoc) : List String :=
  ((provs.filterMap (fun p => p.service_type)).dedup).filter (· ≠ "")

/-- The service-fallback scoring loop of lines 769-775, verbatim: the fold
state is `(best_score, cand)`.  The source updates `best_score` inside the
`if` but never assigns `cand`, so `cand` remains `None` whatever the scores
are (and the tie-break test `cand and len(st) > len(cand)` is always false). -/
def svcFallbackLoop (svc_vals : List String) (message : String) : Nat × Option String :=
  let msg_tokens := _norm_tokens message
  svc_vals.foldl (fun acc st =>
    let st_tokens := _norm_tokens st
    let score := tokenOverlap msg_tokens st_tokens
    if score > acc.1 || (score = acc.1 && truthyS acc.2 && st.length > (acc.2.getD "").length) then
      (score, acc.2)
    else acc) (0, none)

/-- `dt_disp` computation (lines 679-683 and 845-848):
`datetime.fromisoformat(dt_str).strftime(...) if dt_str else dt_str`, with the
`except` clause falling back to `dt_str` itself. -/
def dtDisp (env : Env) (dt_str : Option String) : String :=
  if truthyS dt_str then
    match env.fromIso (dt_str.getD "") with
    | some i => env.fmtDT i
    | none => pyRepr dt_str
  else pyRepr dt_str

/-- Outcome of the booking stage: a reply, an uncaught exception, or a
fall-through to the LLM tail. -/
inductive BookOut where
  | ret (db : DB) (reply : String)
  | crash (db : DB)
  | cont (db : DB)
deriving Repr

/-- The words accepted as confirmation (line 612). -/
def confirmWords : List String := ["yes", "y", "confirm", "ok", "okay", "go ahead", "sure"]

/-- One-decimal `f"{dist_m/1000:.1f} km"` rendering of an integer distance in
metres (display only). -/
def kmDisp (d : Int) : String :=
  let t := roundHalfEven d 100
  toString (t / 10) ++ "." ++ toString (t % 10) ++ " km"

/-- One-decimal `f"★{float(rating):.1f}"` rendering (display only). -/
def ratingDisp (q : Rat) : String :=
  let t := roundHalfEven (q.num * 10) (q.den : Int)
  "★" ++ toString (t / 10) ++ "." ++ toString (t % 10)

/-- The committed-booking path of the confirmation branch (lines 726-749):
insert the booking, clear the negotiation fields, announce. -/
def commitBooking (env : Env) (db : DB) (ph conv_id : String) (merged : Draft)
    (start_dt end_dt : Option Int) (dt_str : Option String)
    (provider_id : Option String) (provider_name : String) : BookOut :=
  let db := db.insertBooking (fun nid =>
    { _id := nid, user_id := some ph, provider_id := provider_id, start := start_dt,
      end_ := end_dt, notes := merged.issue, service := merged.service,
      address := merged.address, created_at := some env.nowInstant })
  let db := db.updConv conv_id (fun c =>
    { c with booking_draft := none, booking_state := none, provider_options := none })
  let dt_disp := match start_dt with
    | some i => env.fmtDT i
    | none => pyRepr dt_str
  let addr_str := joinAddr (merged.address.getD {})
  let pr := "Done! Booked " ++ provider_name ++ " for " ++ dt_disp ++ " at " ++ addr_str ++ "."
  .ret (db.pushMsg conv_id "assistant" pr) pr

/-- chat.py lines 604-874. -/
def bookStage (env : Env) (db : DB) (in_ : ChatIn) (ph conv_id : String)
    (user_location : Option String) (missing : List String) : BookOut :=
  let conv? := db.findConv conv_id
  let draft0 := (conv?.bind (fun c => c.booking_draft)).getD {}
  let bstate0 := conv?.bind (fun c => c.booking_state)
  let prov_opts := (conv?.bind (fun c => c.provider_options)).getD []
  let addr_opts := (conv?.bind (fun c => c.address_options)).getD []
  let lm := pyLower (pyStrip in_.message)
  -- lines 614-628: address selection
  let (db, draft, bstate) :=
    if bstate0 = some "awaiting_address_choice" || (addr_opts ≠ [] && draft0.address.isNone) then
      let chosen :=
        match reSearch trySel none lm.data with
        | some d => addr_opts.get? (d - 1)
        | none => none
      match chosen with
      | some a =>
        let merged := { draft0 with address := some ⟨a.street, a.suburb, a.city⟩ }
        (db.updConv conv_id (fun c =>
          { c with booking_draft := some merged, address_options := none }),
         merged, (none : Option String))
      | none => (db, draft0, bstate0)
    else (db, draft0, bstate0)
  -- lines 630-655: auto-fill the address from saved addresses, or offer a
  -- numbered choice
  let afterFill : Draft ⊕ (DB × String) :=
    if draft.address.isNone then
      let u_doc := db.findUser ph
      let def_addr := _get_default_address u_doc
      let addrs := u_doc.bind (fun u => u.addresses)
      match def_addr with
      | some a => .inl { draft with address := some a }
      | none =>
        match addrs with
        | some l =>
          if l.length > 1 then
            let shown := l.take 9
            let opts : List Addr := shown.map (fun a =>
              ⟨some (orS a.street ""), some (orS a.suburb ""), some (orS a.city "")⟩)
            let optLines := (List.range shown.length).map (fun i =>
              let a := (shown.get? i).getD {}
              let label := String.intercalate ", "
                (([orS a.street "", orS a.suburb "", orS a.city ""]).filter (· ≠ ""))
              let label := if label = "" then "(Unnamed)" else label
              toString (i + 1) ++ ". " ++ label)
            let lines := ["Please choose an address:"] ++ optLines ++
              ["Reply with 1-" ++ toString opts.length ++ " to pick your address."]
            let pr := String.intercalate "\n" lines
            let db := db.updConv conv_id (fun c =>
              { c with address_options := some opts, booking_draft := some draft,
                       booking_state := some "awaiting_address_choice" })
            .inr (db.pushMsg conv_id "assistant" pr, pr)
          else .inl draft
        | none => .inl draft
    else .inl draft
  match afterFill with
  | .inr (db, pr) => .ret db pr
  | .inl draft =>
  -- lines 657-694: provider selection
  let provSel : Option (DB × String) :=
    if bstate = some "awaiting_provider_choice" || (prov_opts ≠ [] && !truthyS draft.provider_id) then
      let chosen :=
        if pyContains lm "recommend" || pyContains lm "choose for me" || pyContains lm "pick for me" then
          prov_opts.head?
        else
          match reSearch trySel none lm.data with
          | some d => prov_opts.get? (d - 1)
          | none => none
      match chosen with
      | some ch =>
        let merged := { draft with provider_id := some (toString ch._id),
                                   provider_name := some (orS ch.name "Provider") }
        let db := db.updConv conv_id (fun c =>
          { c with booking_draft := some merged, provider_options := none })
        let required := ["service", "issue", "date_time", "provider_id"]
        let missing2 := required.filter (fun k =>
          !truthyS (if k = "service" then merged.service
            else if k = "issue" then merged.issue
            else if k = "date_time" then merged.date_time
            else merged.provider_id))
        if missing2 = [] && truthyS merged.issue then
          let addr_str := joinAddr (merged.address.getD {})
          let pr := "Got it! Booking " ++ pyRepr merged.provider_name ++ " for \x27" ++
            pyRepr merged.issue ++ "\x27 on " ++ dtDisp env merged.date_time ++
            " at " ++ addr_str ++ ". Confirm?"
          let db := db.updConv conv_id (fun c => { c with booking_state := some "awaiting_confirm" })
          some (db.pushMsg conv_id "assistant" pr, pr)
        else
          let pr := "Great, I selected " ++ orS merged.provider_name "a provider" ++
            ". Could you provide: " ++ String.intercalate ", " missing2 ++ "?"
          let db := db.updConv conv_id (fun c =>
            { c with booking_draft := some merged, booking_state := some "collecting" })
          some (db.pushMsg conv_id "assistant" pr, pr)
      | none => none
    else none
  match provSel with
  | some (db, pr) => .ret db pr
  | none =>
  -- lines 696-755: awaiting_confirm
  let confirmOut : Option BookOut :=
    if bstate = some "awaiting_confirm" then
      if confirmWords.any (fun w => lm = w || pyStarts lm w) then
        let merged := draft
        let merged :=
          if merged.address.isNone && truthyS user_location then
            let parts := ((splitOnChar ',' (user_location.getD "")).map pyStrip).filter (· ≠ "")
            let addr : Addr :=
              ⟨none,
               if parts.length ≥ 2 then parts.get? (parts.length - 2) else none,
               if parts ≠ [] then parts.get? (parts.length - 1) else none⟩
            { merged with address := some addr }
          else merged
        let dt_str := merged.date_time
        let start_dt := if truthyS dt_str then env.fromIso (dt_str.getD "") else none
        let slot_minutes : Int := 60
        let end_dt := start_dt.map (· + slot_minutes)
        let provider_id := merged.provider_id
        let provider_name := orS merged.provider_name "Provider"
        let u_doc := db.findUser ph
        if start_dt.isSome && truthyS provider_id &&
            !_is_provider_available db provider_id start_dt end_dt then
          let alternatives := _find_nearby_providers env db merged.service u_doc start_dt slot_minutes
          let alt := alternatives.find? (fun p =>
            p.available && toString p.doc._id ≠ provider_id.getD "")
          match alt with
          | some a =>
            some (commitBooking env db ph conv_id merged start_dt end_dt dt_str
              (some (toString a.doc._id)) (orS a.doc.name provider_name))
          | none =>
            let pr := "No providers are available at that time. Please share another time that works for you."
            let db := db.updConv conv_id (fun c =>
              { c with booking_draft := some merged, booking_state := some "collecting" })
            some (.ret (db.pushMsg conv_id "assistant" pr) pr)
        else
          some (commitBooking env db ph conv_id merged start_dt end_dt dt_str
            provider_id provider_name)
      else if lm = "no" || lm = "n" || lm = "cancel" || lm = "stop" then
        let db := db.updConv conv_id (fun c =>
          { c with booking_draft := none, booking_state := none })
        let pr := "Okay, cancelled the booking."
        some (.ret (db.pushMsg conv_id "assistant" pr) pr)
      else none
    else none
  match confirmOut with
  | some out => out
  | none =>
  -- lines 757-761: entity extraction and merge (may raise from the datetime
  -- parser)
  match _extract_booking_entities env.nowDT env.isoOfDT in_.message user_location with
  | .error () => .crash db
  | .ok (extracted, _missingFields) =>
  let merged := mergeDraft draft extracted
  -- lines 762-785: fuzzy service fallback.  The loop never assigns `cand`
  -- (source bug), and line 776 then reads the undefined name `help_text`
  -- inside a comprehension over `missing`, which raises NameError whenever
  -- `missing` is non-empty (unreachable here: registration returned earlier).
  if !truthyS merged.service then
    let svc_vals := svcDistinct db.providers
    let _best := svcFallbackLoop svc_vals in_.message
    if missing.isEmpty then
      let parts : List String := []
      let extra : List String :=
        if !truthyS merged.provider_id && truthyS merged.service then
          ["I\x27ll list nearby providers so you can pick a number or say \x27recommend\x27."]
        else []
      let pr := "Here’s what I need:\n" ++ String.intercalate "\n" parts ++
        (if extra ≠ [] then "\n" ++ String.intercalate " " extra else "")
      .ret (db.pushMsg conv_id "assistant" pr) pr
    else .crash db
  else
  -- lines 786-793: greeting branch (dead code: it requires a falsy service,
  -- which the previous branch already consumed; embedded faithfully)
  if !truthyS merged.service &&
      (["hi", "hello", "hey", "hie", "morning", "afternoon", "evening"].any (fun g => pyContains lm g)) then
    let pr := _llm_natural_reply env
      "The user greeted you. Reply with a short friendly message asking for service and preferred time in one sentence."
      true 60
    .ret (db.pushMsg conv_id "assistant" pr) pr
  else
  -- lines 794-838: list nearby providers
  let listOut : Option (DB × String) :=
    if truthyS merged.service && !truthyS merged.provider_id && prov_opts = [] then
      let u_doc := db.findUser ph
      let desired_start :=
        if truthyS merged.date_time then env.fromIso (merged.date_time.getD "") else none
      let provs := _find_nearby_providers env db merged.service u_doc desired_start
      if provs ≠ [] then
        let shown := provs.take 5
        let rendered := shown.map (fun pv =>
          let nm := orS pv.doc.name "Provider"
          let area := if truthyS pv.doc.coverage then pv.doc.coverage else pv.doc.service_type
          let dist_str : Option String :=
            match pv.distance_m with
            | some d => if d ≠ 0 then some (kmDisp d) else none
            | none => none
          let eta_str : Option String := pv.eta_min.map (fun e => "~" ++ toString e ++ " min")
          let rating_str : Option String :=
            if 0 < pv.rating then some (ratingDisp pv.rating) else none
          let avail_str : Option String :=
            some (if pv.available then "Available" else "Busy")
          let parts := ([area, dist_str, eta_str, rating_str, avail_str].filterMap id).filter (· ≠ "")
          let meta := if parts ≠ [] then String.intercalate " • " parts else pyRepr area
          let opt : POpt :=
            { _id := pv.doc._id, name := some nm, coverage := area,
              distance_m := pv.distance_m, eta_min := pv.eta_min,
              rating := some pv.rating, available := pv.available }
          (nm ++ " — " ++ meta, opt))
        let optLines := (List.range rendered.length).map (fun i =>
          toString (i + 1) ++ ". " ++ ((rendered.get? i).map Prod.fst).getD "")
        let opts := rendered.map Prod.snd
        let lines := ["Here are nearby " ++ merged.service.getD "" ++ "s:"] ++ optLines ++
          ["Reply with 1-" ++ toString opts.length ++ " to choose, or say \x27recommend\x27."]
        let context_text :=
          "Provide a short reply listing the providers below and ask the user to reply with a number or say \x27recommend\x27.\n" ++
          String.intercalate "\n" lines
        let pr := _llm_natural_reply env context_text true 160
        let db := db.updConv conv_id (fun c =>
          { c with provider_options := some opts, booking_draft := some merged,
                   booking_state := some "awaiting_provider_choice" })
        some (db.pushMsg conv_id "assistant" pr, pr)
      else none
    else none
  match listOut with
  | some (db, pr) => .ret db pr
  | none =>
  -- lines 839-840
  let db :=
    if merged.truthy && merged ≠ draft then
      db.updConv conv_id (fun c =>
        { c with booking_draft := some merged, booking_state := some "collecting" })
    else db
  -- lines 841-854
  if merged.truthy && missing.isEmpty && truthyS merged.issue then
    let addr_str := joinAddr (merged.address.getD {})
    let prov_name := orS merged.provider_name "a provider"
    let pr := "Got it! Booking " ++ prov_name ++ " for \x27" ++ pyRepr merged.issue ++
      "\x27 on " ++ dtDisp env merged.date_time ++ " at " ++ addr_str ++ ". Confirm?"
    let db := db.updConv conv_id (fun c => { c with booking_state := some "awaiting_confirm" })
    .ret (db.pushMsg conv_id "assistant" pr) pr
  -- lines 855-874
  else if extracted.truthy && !missing.isEmpty then
    let ctx := ["Compose a short, friendly reply asking only for the missing details."] ++
      (if truthyS merged.service then ["- service: " ++ pyRepr merged.service] else []) ++
      (if truthyS merged.issue then ["- task: " ++ pyRepr merged.issue] else []) ++
      (if truthyS merged.date_time then ["- date_time: " ++ pyRepr merged.date_time] else []) ++
      (let addr := merged.address.getD {}
       if truthyS addr.street || truthyS addr.suburb || truthyS addr.city then
         ["- address: " ++ joinAddr addr]
       else []) ++
      ["Missing: " ++ String.intercalate ", " missing]
    let pr := _llm_natural_reply env (String.intercalate "\n" ctx) true 140
    let db := db.updConv conv_id (fun c =>
      { c with booking_draft := some merged, booking_state := some "collecting" })
    .ret (db.pushMsg conv_id "assistant" pr) pr
  else .cont db

/-! ### LLM fallback tail and the composed endpoint -/

/-- chat.py lines 876-919 (plus line 359's `messages`): tiered Bedrock model
candidates, then the rule-based local fallback; push the reply and return. -/
def tailLLM (env : Env) (db : DB) (in_ : ChatIn) (conv_id : String)
    (user_location : Option String) : DB × Option String :=
  let fast_mode := in_.fast.getD false
  let max_tokens : Nat := if fast_mode then 120 else 400
  let temperature := if fast_mode then mkRat 3 10 else mkRat 4 10
  let reply :=
    if env.USE_LOCAL_LLM then local_reply in_.message (truthyS user_location)
    else
      let mc := if fast_mode then _variants env.FAST_MODEL_ID
        else _variants env.MODEL_ID ++ _variants "anthropic.claude-3-haiku-20240307"
      let candidates := dedupModels mc
      let messages : List Msg := [⟨"user", in_.message⟩]
      let llm_messages :=
        if truthyS user_location then
          (⟨"user", "[Context] User location: " ++ user_location.getD ""⟩ : Msg) :: messages
        else messages
      match tryModels env candidates llm_messages max_tokens temperature with
      | some r => r
      | none => local_reply in_.message (truthyS user_location)
  (db.pushMsg conv_id "assistant" reply, some reply)

/-- Line 329: `_extract_phone(user_id) or _extract_phone(session_id)` (phone
tokens are truthy whenever present). -/
def phoneOf (in_ : ChatIn) : Option String :=
  match _extract_phone (some in_.user_id) with
  | some p => some p
  | none => _extract_phone (some in_.session_id)

/-- chat.py lines 326-919: the full endpoint.  The result is the database
after the turn and `some reply`, or `none` when the turn died on an uncaught
exception (the reply of line 402 and every other early return is routed
through the stage outcomes). -/
def chat (env : Env) (db : DB) (in_ : ChatIn) : DB × Option String :=
  match phoneOf in_ with
  | none =>
    -- lines 344-350: upsert the conversation by session id
    let conv_id := in_.session_id
    let db :=
      match db.findConv conv_id with
      | some _ => db
      | none => db.insertConv
          { session_id := conv_id, status := "open", started_at := some env.nowIso, messages := [] }
    let db := db.pushMsg conv_id "user" in_.message
    tailLLM env db in_ conv_id none
  | some ph =>
    -- lines 331-343: reuse the open conversation for this phone or create one
    let (db, conv_id) :=
      match db.conversations.find? (fun c => c.phone = some ph && c.status ≠ "closed") with
      | some c => (db, c.session_id)
      | none =>
        let cid := env.uuid
        (db.insertConv
          { session_id := cid, phone := some ph, status := "open",
            started_at := some env.nowIso, messages := [] }, cid)
    -- lines 352-357: persist the inbound message before any branch logic
    let db := db.pushMsg conv_id "user" in_.message
    match regStage env db in_ ph conv_id with
    | .ret db pr => (db, some pr)
    | .cont db user_location missing =>
      match provStage env db in_ ph conv_id with
      | .ret db pr => (db, some pr)
      | .cont db =>
        match bookStage env db in_ ph conv_id user_location missing with
        | .ret db pr => (db, some pr)
        | .crash db => (db, none)
        | .cont db => tailLLM env db in_ conv_id user_location

/-! ## Infrastructure lemmas about the database operations -/

/-- The booking-state of the (first) conversation with a given session id. -/
def stateAt (db : DB) (cid : String) : Option String :=
  (db.findConv cid).bind (fun c => c.booking_state)

/-- Database component of a booking-stage outcome. -/
def BookOut.db : BookOut → DB
  | .ret db _ => db
  | .crash db => db
  | .cont db => db

/-! ### Claim C1: the conflict predicate -/

/-- A stored booking for provider `pid` covering `[s, e)`, used to state the
interval-level facts about the conflict predicate. -/
def mkBk (pid : String) (s e : Int) : BookingDoc :=
  { _id := 0, provider_id := some pid, start := some s, end_ := some e }

/-- The sort key ordering of chat.py lines 248-253, written out as the
three-way lexicographic proposition the spec describes: available first,
then rating descending, then distance ascending with unknown distance last. -/
def rankOrder (p q : Enriched) : Prop :=
  availKey p.available < availKey q.available ∨
  (availKey p.available = availKey q.available ∧ q.rating < p.rating) ∨
  (availKey p.available = availKey q.available ∧ p.rating = q.rating ∧
    distLE p.distance_m q.distance_m = true)

instance (p q : Enriched) : Decidable (rankOrder p q) := by
  unfold rankOrder
  infer_instance

/-- Provider A of the ranking example in the spec: available, rating 4.5,
2 km away. -/
def pA : Enriched :=
  { doc := { _id := 1, phone := "a" }, distance_m := some 2000,
    rating := mkRat 9 2, available := true }

/-- Provider B of the ranking example: unavailable, rating 5.0, 1 km away. -/
def pB : Enriched :=
  { doc := { _id := 2, phone := "b" }, distance_m := some 1000,
    rating := mkRat 5 1, available := false }

/-- Provider C of the ranking example: available, rating 4.0, 1 km away. -/
def pC : Enriched :=
  { doc := { _id := 3, phone := "c" }, distance_m := some 1000,
    rating := mkRat 4 1, available := true }

/-- The 12-hour arithmetic of chat.py lines 107-111. -/
def hour24 (h0 : Nat) (ap : Option AmPm) : Nat :=
  match ap with
  | some .pm => if h0 ≠ 12 then h0 + 12 else h0
  | some .am => if h0 = 12 then 0 else h0
  | none => h0

/-! ### Concrete scenario data -/

/-- A deterministic environment for the concrete scenarios: the LLM is the
local echo, reverse geocoding fails, `fromisoformat` only accepts the token
"ISO600" (instant 600), `$geoNear` returns nothing. -/
def env0 : Env := {
  nowDT := ⟨100, 8, 15, 33, 7⟩
  nowIso := "2026-01-01T00:00:00"
  nowInstant := 5000
  uuid := "conv-1"
  revGeo := fun _ _ => none
  converse := fun _ _ _ _ _ => none
  fromIso := fun s => if s = "ISO600" then some 600 else none
  isoOfDT := fun d => "dt-" ++ toString d.day ++ "-" ++ toString d.hour ++ "-" ++ toString d.minute
  fmtDT := fun i => "fmt-" ++ toString i
  geoNear := fun _ _ _ _ => []
  USE_LOCAL_LLM := true
  POLICY_URL := "http://policy"
  PROVIDER_POLICY_URL := "http://ppolicy"
  MODEL_ID := "m1"
  FAST_MODEL_ID := "m2" }

/-- A fully registered user. -/
def regUser : UserDoc :=
  { _id := 0, phone := "263771", name := some "Bob", location := some "Avondale, Harare",
    policy_agreed := true }

/-- An open conversation for that phone. -/
def openConv : ConvDoc := { session_id := "s1", phone := some "263771", status := "open" }

/-- An inbound WhatsApp message from that phone. -/
def inMsg (m : String) : ChatIn :=
  { session_id := "sess", user_id := "263771@s.whatsapp.net", message := m }

/-- Database for the pending-field scenario: the user was asked for their
name (`pending_field = "name"`) and an open conversation exists. -/
def db6 : DB := { users := [{ _id := 0, phone := "263771", pending_field := some "name" }],
                  conversations := [openConv], nextId := 1 }

/-- The pending-name user of the C6 witness, already fully registered. -/
def db6b : DB :=
  { users := [{ _id := 0, phone := "263771", name := some "Bob",
                location := some "Avondale, Harare", policy_agreed := true,
                pending_field := some "name" }],
    conversations := [openConv], nextId := 1 }

/-- Database for the crash scenario: one registered user, one open
conversation, no providers. -/
def db3 : DB := { users := [regUser], conversations := [openConv], nextId := 1 }

/-- Database for the fuzzy-service scenario: the provider store knows the
service type "cleaning", which the fixed vocabulary does not contain. -/
def db8 : DB := { users := [regUser],
                  providers := [{ _id := 5, phone := "7799", active := true,
                                  service_type := some "cleaning" }],
                  conversations := [openConv], nextId := 6 }

/-- A fully specified booking draft: plumber, "a leak", parseable time token
"ISO600", chosen provider 7 named Piper, and a full address. -/
def fullDraft : Draft :=
  { service := some "plumber", issue := some "a leak", date_time := some "ISO600",
    address := some ⟨some "12 Main", some "North", some "City"⟩,
    provider_id := some "7", provider_name := some "Piper" }

/-- Conversation awaiting confirmation of `fullDraft`. -/
def conv4 : ConvDoc :=
  { openConv with booking_state := some "awaiting_confirm", booking_draft := some fullDraft }

/-- Database for the idempotence scenario. -/
def db4 : DB := { users := [regUser], conversations := [conv4], nextId := 1 }

/-- The chosen provider of the conflict scenario. -/
def prov7 : ProviderDoc :=
  { _id := 7, phone := "7799", active := true, service_type := some "plumber" }

/-- An existing booking for provider 7 overlapping the requested `[600,660)`. -/
def conflictBooking : BookingDoc :=
  { _id := 9, provider_id := some "7", start := some 630, end_ := some 690 }

/-- Database for the conflict scenario with no alternative provider. -/
def db7 : DB := { users := [regUser], providers := [prov7], bookings := [conflictBooking],
                  conversations := [conv4], nextId := 10 }

/-- The draft of the C10 scenario: same as `fullDraft` but with a date_time
token `fromisoformat` cannot parse. -/
def draft10 : Draft := { fullDraft with date_time := some "not-iso" }

/-- Conversation awaiting confirmation of `draft10`. -/
def conv10 : ConvDoc :=
  { openConv with booking_state := some "awaiting_confirm", booking_draft := some draft10 }

/-- Database for the null-endpoint insertion scenario. -/
def db10 : DB := { users := [regUser], conversations := [conv10], nextId := 1 }

theorem find?_updateFirst_self {α : Type} {p : α → Bool} {f : α → α} {l : List α} {c : α}
    (h : l.find? p = some c) (hp : ∀ a, p a = true → p (f a) = true) :
    (updateFirst p f l).find? p = some (f c) := by
  induction l with
  | nil => simp at h
  | cons x xs ih =>
    by_cases hx : p x = true
    · simp [List.find?_cons, hx] at h
      subst h
      simp [updateFirst, hx, List.find?_cons, hp x hx]
    · simp [List.find?_cons, hx] at h ⊢
      simp [updateFirst, hx, List.find?_cons, ih h]

theorem find?_updateFirst_proj {α β : Type} {p q : α → Bool} {f : α → α} {g : α → Option β}
    (hq : ∀ a, q (f a) = q a) (hg : ∀ a, g (f a) = g a) (l : List α) :
    ((updateFirst p f l).find? q).bind g = (l.find? q).bind g := by
  induction l with
  | nil => simp [updateFirst]
  | cons x xs ih =>
    by_cases hx : p x = true
    · by_cases hqx : q x = true
      · simp [updateFirst, hx, List.find?_cons, hq, hqx, hg]
      · simp [updateFirst, hx, List.find?_cons, hq, hqx]
    · by_cases hqx : q x = true
      · simp [updateFirst, hx, List.find?_cons, hqx]
      · simp [updateFirst, hx, List.find?_cons, hqx, ih]

theorem bookings_updConv (db : DB) (cid : String) (f : ConvDoc → ConvDoc) :
    (db.updConv cid f).bookings = db.bookings := rfl

theorem bookings_pushMsg (db : DB) (cid r t : String) :
    (db.pushMsg cid r t).bookings = db.bookings := rfl

theorem bookings_updUser (db : DB) (uid : Nat) (f : UserDoc → UserDoc) :
    (db.updUser uid f).bookings = db.bookings := rfl

theorem bookings_updProvById (db : DB) (pid : Nat) (f : ProviderDoc → ProviderDoc) :
    (db.updProvById pid f).bookings = db.bookings := rfl

theorem bookings_updProvByPhone (db : DB) (ph : String) (f : ProviderDoc → ProviderDoc) :
    (db.updProvByPhone ph f).bookings = db.bookings := rfl

theorem bookings_insertUser (db : DB) (mk : Nat → UserDoc) :
    (db.insertUser mk).bookings = db.bookings := rfl

theorem bookings_insertProv (db : DB) (mk : Nat → ProviderDoc) :
    (db.insertProv mk).1.bookings = db.bookings := rfl

theorem bookings_logClose (env : Env) (db : DB) (cid : String) :
    (_log_and_close env db cid).bookings = db.bookings := by
  unfold _log_and_close
  split <;> rfl

theorem stateAt_updConv (db : DB) (cid cid' : String) {f : ConvDoc → ConvDoc}
    (h1 : ∀ c, (f c).session_id = c.session_id)
    (h2 : ∀ c, (f c).booking_state = c.booking_state) :
    stateAt (db.updConv cid f) cid' = stateAt db cid' := by
  unfold stateAt DB.findConv DB.updConv
  exact find?_updateFirst_proj (fun a => by simp [h1]) (fun a => h2 a) db.conversations

theorem stateAt_pushMsg (db : DB) (cid r t : String) (cid' : String) :
    stateAt (db.pushMsg cid r t) cid' = stateAt db cid' :=
  stateAt_updConv db cid cid' (fun _ => rfl) (fun _ => rfl)

theorem stateAt_updUser (db : DB) (uid : Nat) (f : UserDoc → UserDoc) (cid' : String) :
    stateAt (db.updUser uid f) cid' = stateAt db cid' := rfl

theorem stateAt_updProvById (db : DB) (pid : Nat) (f : ProviderDoc → ProviderDoc) (cid' : String) :
    stateAt (db.updProvById pid f) cid' = stateAt db cid' := rfl

theorem stateAt_updProvByPhone (db : DB) (ph : String) (f : ProviderDoc → ProviderDoc) (cid' : String) :
    stateAt (db.updProvByPhone ph f) cid' = stateAt db cid' := rfl

theorem stateAt_insertUser (db : DB) (mk : Nat → UserDoc) (cid' : String) :
    stateAt (db.insertUser mk) cid' = stateAt db cid' := rfl

theorem stateAt_insertProv (db : DB) (mk : Nat → ProviderDoc) (cid' : String) :
    stateAt (db.insertProv mk).1 cid' = stateAt db cid' := rfl

theorem stateAt_logClose (env : Env) (db : DB) (cid : String) (cid' : String) :
    stateAt (_log_and_close env db cid) cid' = stateAt db cid' := by
  unfold _log_and_close
  split
  · rfl
  · exact stateAt_updConv db cid cid' (fun _ => rfl) (fun _ => rfl)

theorem findConv_updConv_self {db : DB} {cid : String} {c : ConvDoc} {f : ConvDoc → ConvDoc}
    (h : db.findConv cid = some c) (hf : ∀ x, (f x).session_id = x.session_id) :
    (db.updConv cid f).findConv cid = some (f c) := by
  unfold DB.findConv at h
  unfold DB.findConv DB.updConv
  exact find?_updateFirst_self h (fun a ha => by simpa [hf] using ha)

theorem findConv_pushMsg_self {db : DB} {cid : String} {c : ConvDoc} (r t : String)
    (h : db.findConv cid = some c) :
    (db.pushMsg cid r t).findConv cid = some { c with messages := c.messages ++ [⟨r, t⟩] } :=
  findConv_updConv_self h (fun _ => rfl)

theorem stateAt_congr {db1 db2 : DB} (h : db1.conversations = db2.conversations) (cid : String) :
    stateAt db1 cid = stateAt db2 cid := by
  unfold stateAt DB.findConv
  rw [h]

/-! ## Stage invariance: no stage other than the booking commit touches the
bookings collection, and only the booking stage changes a conversation's
`booking_state`. -/

theorem regEnsureUser_inv (db : DB) (ph : String) :
    (regEnsureUser db ph).1.bookings = db.bookings ∧
    (regEnsureUser db ph).1.conversations = db.conversations := by
  unfold regEnsureUser
  split <;> exact ⟨rfl, rfl⟩

theorem regCoords_inv (env : Env) (db : DB) (in_ : ChatIn) (u : UserDoc) :
    (regCoords env db in_ u).1.bookings = db.bookings ∧
    (regCoords env db in_ u).1.conversations = db.conversations := by
  unfold regCoords
  dsimp only
  repeat' split
  all_goals exact ⟨rfl, rfl⟩

theorem regPending_inl_inv {env : Env} {db : DB} {in_ : ChatIn} {u : UserDoc} {cid : String}
    {db' : DB} {u' : UserDoc} (h : regPending env db in_ u cid = .inl (db', u')) :
    db'.bookings = db.bookings ∧ db'.conversations = db.conversations := by
  unfold regPending at h
  dsimp only at h
  repeat' split at h
  all_goals cases h
  all_goals exact ⟨rfl, rfl⟩

theorem regPending_inr_inv {env : Env} {db : DB} {in_ : ChatIn} {u : UserDoc} {cid : String}
    {db' : DB} {r : String} (h : regPending env db in_ u cid = .inr (db', r)) :
    db'.bookings = db.bookings ∧ ∀ cid', stateAt db' cid' = stateAt db cid' := by
  unfold regPending at h
  dsimp only at h
  repeat' split at h
  all_goals cases h
  all_goals
    exact ⟨by simp only [bookings_logClose, bookings_pushMsg, bookings_updUser],
      fun cid' => by simp only [stateAt_logClose, stateAt_pushMsg, stateAt_updUser]⟩

theorem regCommands_some_inv {env : Env} {db : DB} {in_ : ChatIn} {u : UserDoc}
    {ph cid : String} {db' : DB} {r : String}
    (h : regCommands env db in_ u ph cid = some (db', r)) :
    db'.bookings = db.bookings ∧ ∀ cid', stateAt db' cid' = stateAt db cid' := by
  unfold regCommands at h
  dsimp only at h
  repeat' split at h
  all_goals cases h
  all_goals
    exact ⟨by simp only [bookings_logClose, bookings_pushMsg, bookings_updUser,
        bookings_updProvByPhone],
      fun cid' => by simp only [stateAt_logClose, stateAt_pushMsg, stateAt_updUser,
        stateAt_updProvByPhone]⟩

theorem regMissing_ret_inv {env : Env} {db : DB} {u : UserDoc} {cid : String}
    {loc : Option String} {db' : DB} {r : String}
    (h : regMissing env db u cid loc = .ret db' r) :
    db'.bookings = db.bookings ∧ ∀ cid', stateAt db' cid' = stateAt db cid' := by
  unfold regMissing at h
  dsimp only at h
  repeat' split at h
  all_goals cases h
  all_goals
    exact ⟨by simp only [bookings_pushMsg, bookings_updUser],
      fun cid' => by simp only [stateAt_pushMsg, stateAt_updUser]⟩

theorem regMissing_cont_inv {env : Env} {db : DB} {u : UserDoc} {cid : String}
    {loc : Option String} {db' : DB} {loc' : Option String} {m : List String}
    (h : regMissing env db u cid loc = .cont db' loc' m) :
    db' = db ∧ m = [] := by
  unfold regMissing at h
  dsimp only at h
  repeat' split at h
  all_goals cases h
  all_goals simp_all

theorem regStage_ret_inv {env : Env} {db : DB} {in_ : ChatIn} {ph cid : String}
    {db' : DB} {r : String} (h : regStage env db in_ ph cid = .ret db' r) :
    db'.bookings = db.bookings ∧ ∀ cid', stateAt db' cid' = stateAt db cid' := by
  unfold regStage at h
  rcases hE : regEnsureUser db ph with ⟨db1, u1⟩
  have h1 := regEnsureUser_inv db ph
  rw [hE] at h1 h
  dsimp only at h
  rcases hC : regCoords env db1 in_ u1 with ⟨db2, u2⟩
  have h2 := regCoords_inv env db1 in_ u1
  rw [hC] at h2 h
  dsimp only at h
  rcases hPe : regPending env db2 in_ u2 cid with ⟨db3, u3⟩ | ⟨db3, r3⟩
  · rw [hPe] at h
    dsimp only at h
    rcases hCe : regCommands env db3 in_ u3 ph cid with _ | ⟨db4, r4⟩
    · rw [hCe] at h
      dsimp only at h
      have hM := regMissing_ret_inv h
      have hP := regPending_inl_inv hPe
      exact ⟨by rw [hM.1, hP.1, h2.1, h1.1],
        fun cid' => by
          rw [hM.2 cid', stateAt_congr hP.2 cid', stateAt_congr h2.2 cid',
            stateAt_congr h1.2 cid']⟩
    · rw [hCe] at h
      dsimp only at h
      cases h
      have hCm := regCommands_some_inv hCe
      have hP := regPending_inl_inv hPe
      exact ⟨by rw [hCm.1, hP.1, h2.1, h1.1],
        fun cid' => by
          rw [hCm.2 cid', stateAt_congr hP.2 cid', stateAt_congr h2.2 cid',
            stateAt_congr h1.2 cid']⟩
  · rw [hPe] at h
    dsimp only at h
    cases h
    have hP := regPending_inr_inv hPe
    exact ⟨by rw [hP.1, h2.1, h1.1],
      fun cid' => by
        rw [hP.2 cid', stateAt_congr h2.2 cid', stateAt_congr h1.2 cid']⟩

theorem regStage_cont_inv {env : Env} {db : DB} {in_ : ChatIn} {ph cid : String}
    {db' : DB} {loc : Option String} {m : List String}
    (h : regStage env db in_ ph cid = .cont db' loc m) :
    db'.bookings = db.bookings ∧ db'.conversations = db.conversations ∧ m = [] := by
  unfold regStage at h
  rcases hE : regEnsureUser db ph with ⟨db1, u1⟩
  have h1 := regEnsureUser_inv db ph
  rw [hE] at h1 h
  dsimp only at h
  rcases hC : regCoords env db1 in_ u1 with ⟨db2, u2⟩
  have h2 := regCoords_inv env db1 in_ u1
  rw [hC] at h2 h
  dsimp only at h
  rcases hPe : regPending env db2 in_ u2 cid with ⟨db3, u3⟩ | ⟨db3, r3⟩
  · rw [hPe] at h
    dsimp only at h
    rcases hCe : regCommands env db3 in_ u3 ph cid with _ | ⟨db4, r4⟩
    · rw [hCe] at h
      dsimp only at h
      have hM := regMissing_cont_inv h
      have hP := regPending_inl_inv hPe
      rcases hM with ⟨rfl, rfl⟩
      exact ⟨by rw [hP.1, h2.1, h1.1], by rw [hP.2, h2.2, h1.2], rfl⟩
    · rw [hCe] at h
      dsimp only at h
      cases h
  · rw [hPe] at h
    dsimp only at h
    cases h

theorem provStage_ret_inv {env : Env} {db : DB} {in_ : ChatIn} {ph cid : String}
    {db' : DB} {r : String} (h : provStage env db in_ ph cid = .ret db' r) :
    db'.bookings = db.bookings ∧ ∀ cid', stateAt db' cid' = stateAt db cid' := by
  unfold provStage at h
  dsimp only at h
  repeat' split at h
  all_goals cases h
  all_goals
    exact ⟨by simp only [bookings_logClose, bookings_pushMsg, bookings_updProvById,
        bookings_insertProv],
      fun cid' => by simp only [stateAt_logClose, stateAt_pushMsg, stateAt_updProvById,
        stateAt_insertProv]⟩

theorem provStage_cont_inv {env : Env} {db : DB} {in_ : ChatIn} {ph cid : String}
    {db' : DB} (h : provStage env db in_ ph cid = .cont db') : db' = db := by
  unfold provStage at h
  dsimp only at h
  repeat' split at h
  all_goals cases h
  all_goals rfl

theorem tailLLM_inv (env : Env) (db : DB) (in_ : ChatIn) (cid : String) (loc : Option String) :
    (tailLLM env db in_ cid loc).1.bookings = db.bookings ∧
    ∀ cid', stateAt (tailLLM env db in_ cid loc).1 cid' = stateAt db cid' := by
  unfold tailLLM
  exact ⟨by simp only [bookings_pushMsg], fun cid' => by simp only [stateAt_pushMsg]⟩

theorem mergeDraft_of_full {d : Draft} {e : Extracted}
    (hs : truthyS d.service = true) (hi : truthyS d.issue = true)
    (hdt : truthyS d.date_time = true) (haddr : d.address.isSome = true) :
    mergeDraft d e = d := by
  have hA : d.address.isNone = false := by cases h : d.address <;> simp_all
  unfold mergeDraft
  simp [hs, hi, hdt, hA]

theorem Draft.truthy_of_service {d : Draft} (hs : truthyS d.service = true) :
    d.truthy = true := by
  unfold Draft.truthy
  cases h : d.service with
  | none => rw [h] at hs; simp [truthyS] at hs
  | some s => simp

/-- Through the booking stage, a fully-specified draft in `awaiting_confirm`
met by a message that neither confirms nor cancels leaves the bookings
collection untouched and the conversation still in `awaiting_confirm`
(whether the turn replies, crashes in the extractor, or falls through). -/
theorem bookStage_c4 {env : Env} {db : DB} {in_ : ChatIn} {ph cid : String}
    {loc : Option String} {c1 : ConvDoc} {d : Draft}
    (hconv : db.findConv cid = some c1)
    (hstate : c1.booking_state = some "awaiting_confirm")
    (hdraft : c1.booking_draft = some d)
    (hs : truthyS d.service = true) (hi : truthyS d.issue = true)
    (hdt : truthyS d.date_time = true) (hpid : truthyS d.provider_id = true)
    (haddr : d.address.isSome = true)
    (hnc : (confirmWords.any (fun w =>
      pyLower (pyStrip in_.message) = w || pyStarts (pyLower (pyStrip in_.message)) w)) = false)
    (hncan : ((pyLower (pyStrip in_.message)) = "no" ||
              (pyLower (pyStrip in_.message)) = "n" ||
              (pyLower (pyStrip in_.message)) = "cancel" ||
              (pyLower (pyStrip in_.message)) = "stop") = false) :
    (bookStage env db in_ ph cid loc []).db.bookings = db.bookings ∧
    stateAt (bookStage env db in_ ph cid loc []).db cid = some "awaiting_confirm" := by
  have hAn : d.address.isNone = false := by cases h : d.address <;> simp_all
  unfold bookStage
  rw [hconv]
  dsimp only [Option.bind]
  rw [hstate, hdraft]
  dsimp only [Option.getD_some]
  simp only [hAn, hpid, hnc, hncan, Bool.and_false, Bool.false_and, Bool.or_false,
    Bool.not_true, Bool.false_or, Bool.and_true, Bool.true_and,
    show (decide ((some "awaiting_confirm" : Option String) = some "awaiting_address_choice")) = false by decide,
    show (decide ((some "awaiting_confirm" : Option String) = some "awaiting_provider_choice")) = false by decide,
    show (decide ((some "awaiting_confirm" : Option String) = some "awaiting_confirm")) = true by decide,
    Bool.false_eq_true, if_false, if_true, Bool.true_eq_false]
  rcases hX : _extract_booking_entities env.nowDT env.isoOfDT in_.message loc with ⟨⟩ | ⟨extracted, mf⟩
  · dsimp only [BookOut.db]
    refine ⟨rfl, ?_⟩
    unfold stateAt
    rw [hconv]
    dsimp only [Option.bind]
    exact hstate
  · dsimp only
    rw [mergeDraft_of_full hs hi hdt haddr]
    have ht : d.truthy = true := Draft.truthy_of_service hs
    simp only [hs, hpid, ht, hi, Bool.not_true, Bool.false_and, Bool.and_false, Bool.true_and,
      Bool.and_true, Bool.false_eq_true, if_false, List.isEmpty_nil, ne_eq, not_true_eq_false,
      decide_not, decide_True, decide_False, Bool.not_false, Bool.or_false, Bool.false_or]
    rw [if_pos trivial]
    dsimp only [BookOut.db]
    refine ⟨rfl, ?_⟩
    rw [stateAt_pushMsg]
    unfold stateAt
    rw [findConv_updConv_self (f := fun c => { c with booking_state := some "awaiting_confirm" })
      hconv (fun _ => rfl)]
    dsimp only [Option.bind]


/-- A fully registered user with no pending field: the registration stage
falls through without touching the database. -/
theorem regStage_registered {env : Env} {db : DB} {in_ : ChatIn} {ph cid : String}
    {u0 : UserDoc}
    (hu : db.findUser ph = some u0)
    (hlat : in_.lat = none)
    (hname : truthyS u0.name = true)
    (hloc : truthyS u0.location = true)
    (hpol : u0.policy_agreed = true)
    (hpend : u0.pending_field = none)
    (hslash : pyStarts (pyLower (pyStrip in_.message)) "/" = false) :
    regStage env db in_ ph cid = .cont db u0.location [] := by
  have hcoords : (in_.lat.isSome && in_.lng.isSome) = false := by
    rw [hlat]; rfl
  unfold regStage regEnsureUser
  rw [hu]
  dsimp only
  unfold regCoords
  rw [hcoords, hloc]
  simp only [Bool.not_true, Bool.not_false, Bool.false_and, Bool.and_false, Bool.true_and,
    Bool.false_eq_true, if_false]
  unfold regPending
  rw [hcoords, hpend]
  simp only [show (decide ((none : Option String) = some "name")) = false by decide,
    show (decide ((none : Option String) = some "location")) = false by decide,
    Bool.false_and, Bool.false_eq_true, if_false]
  rw [if_neg (show ¬ ((none : Option String) = some "policy") by simp)]
  dsimp only
  unfold regCommands
  dsimp only
  rw [hslash]
  simp only [Bool.false_eq_true, if_false]
  unfold regMissing
  rw [hname, hloc, hpol]
  simp

/-- No provider record and no "register … provider" trigger: the onboarding
stage falls through unchanged. -/
theorem provStage_skip {env : Env} {db : DB} {in_ : ChatIn} {ph cid : String}
    (hp : db.findProv ph = none)
    (hreg : pyContains (pyLower (pyStrip in_.message)) "register" = false) :
    provStage env db in_ ph cid = .cont db := by
  unfold provStage
  dsimp only
  rw [hp, hreg]
  simp

/-- Confirmation with an unparseable or absent `date_time`: the availability
check is skipped wholesale and the commit runs with null start/end. -/
theorem bookStage_confirm_nodt {env : Env} {db : DB} {in_ : ChatIn} {ph cid : String}
    {loc : Option String} {c1 : ConvDoc} {d : Draft}
    (hconv : db.findConv cid = some c1)
    (hstate : c1.booking_state = some "awaiting_confirm")
    (hdraft : c1.booking_draft = some d)
    (hpo : c1.provider_options = none)
    (hao : c1.address_options = none)
    (haddr : d.address.isSome = true)
    (hpid : truthyS d.provider_id = true)
    (hyes : pyLower (pyStrip in_.message) = "yes")
    (hstart : (if truthyS d.date_time = true then env.fromIso (d.date_time.getD "") else none) = none) :
    bookStage env db in_ ph cid loc [] =
      commitBooking env db ph cid d none none d.date_time d.provider_id
        (orS d.provider_name "Provider") := by
  have hAn : d.address.isNone = false := by cases h : d.address <;> simp_all
  unfold bookStage
  rw [hconv]
  dsimp only [Option.bind]
  rw [hstate, hdraft, hpo, hao, hyes]
  dsimp only [Option.getD_some, Option.getD_none]
  simp only [hAn, hpid, Bool.and_false, Bool.false_and, Bool.or_false,
    Bool.not_true, Bool.false_or, Bool.and_true, Bool.true_and,
    show (decide ((some "awaiting_confirm" : Option String) = some "awaiting_address_choice")) = false by decide,
    show (decide ((some "awaiting_confirm" : Option String) = some "awaiting_provider_choice")) = false by decide,
    show (decide ((some "awaiting_confirm" : Option String) = some "awaiting_confirm")) = true by decide,
    show (confirmWords.any (fun w => "yes" = w || pyStarts "yes" w)) = true by decide,
    show (([] : List Addr) ≠ []) = False by simp,
    show (([] : List POpt) ≠ []) = False by simp,
    Bool.false_eq_true, if_false, if_true, Bool.true_eq_false]
  rw [hstart]
  dsimp only [Option.isSome_none, Bool.false_and, Option.map_none]
  simp only [Bool.false_eq_true, if_false, Bool.false_and]
  rfl

/-- Confirmation where the chosen provider's slot now conflicts: the committer
books the first available alternative with a different id, or refuses and
demotes the draft to `collecting`. -/
theorem bookStage_confirm_conflict {env : Env} {db : DB} {in_ : ChatIn} {ph cid : String}
    {loc : Option String} {c1 : ConvDoc} {d : Draft} {st : Int}
    (hconv : db.findConv cid = some c1)
    (hstate : c1.booking_state = some "awaiting_confirm")
    (hdraft : c1.booking_draft = some d)
    (hpo : c1.provider_options = none)
    (hao : c1.address_options = none)
    (haddr : d.address.isSome = true)
    (hpid : truthyS d.provider_id = true)
    (hyes : pyLower (pyStrip in_.message) = "yes")
    (hdtT : truthyS d.date_time = true)
    (hparse : env.fromIso (d.date_time.getD "") = some st)
    (hunavail : _is_provider_available db d.provider_id (some st) (some (st + 60)) = false) :
    bookStage env db in_ ph cid loc [] =
      (match (_find_nearby_providers env db d.service (db.findUser ph) (some st) 60 30000).find?
          (fun p => p.available && toString p.doc._id ≠ d.provider_id.getD "") with
       | some a =>
         commitBooking env db ph cid d (some st) (some (st + 60)) d.date_time
           (some (toString a.doc._id)) (orS a.doc.name (orS d.provider_name "Provider"))
       | none =>
         .ret ((db.updConv cid (fun c =>
             { c with booking_draft := some d, booking_state := some "collecting" })).pushMsg
             cid "assistant"
             "No providers are available at that time. Please share another time that works for you.")
           "No providers are available at that time. Please share another time that works for you.") := by
  have hAn : d.address.isNone = false := by cases h : d.address <;> simp_all
  unfold bookStage
  rw [hconv]
  dsimp only [Option.bind]
  rw [hstate, hdraft, hpo, hao, hyes]
  dsimp only [Option.getD_some, Option.getD_none]
  simp only [hAn, hpid, Bool.and_false, Bool.false_and, Bool.or_false,
    Bool.not_true, Bool.false_or, Bool.and_true, Bool.true_and,
    show (decide ((some "awaiting_confirm" : Option String) = some "awaiting_address_choice")) = false by decide,
    show (decide ((some "awaiting_confirm" : Option String) = some "awaiting_provider_choice")) = false by decide,
    show (decide ((some "awaiting_confirm" : Option String) = some "awaiting_confirm")) = true by decide,
    show (confirmWords.any (fun w => "yes" = w || pyStarts "yes" w)) = true by decide,
    show (([] : List Addr) ≠ []) = False by simp,
    show (([] : List POpt) ≠ []) = False by simp,
    Bool.false_eq_true, if_false, if_true, Bool.true_eq_false]
  rw [hdtT]
  simp only [if_true]
  rw [hparse]
  dsimp only [Option.isSome_some, Option.map_some', Bool.true_and]
  rw [hunavail]
  simp only [Bool.not_false, Bool.and_true, if_true]
  cases hf : List.find? (fun p => p.available && decide (toString p.doc._id ≠ d.provider_id.getD ""))
      (_find_nearby_providers env db d.service (db.findUser ph) (some st)) <;> rfl

theorem stateAt_of_findConv {db : DB} {cid : String} {c : ConvDoc}
    (h : db.findConv cid = some c) : stateAt db cid = c.booking_state := by
  unfold stateAt
  rw [h]
  rfl

/-- A registered user with an open conversation saying "yes": the turn reaches
the booking stage with the conversation's own session id and the user's stored
location. -/
theorem chat_entry_yes {env : Env} {db : DB} {in_ : ChatIn} {ph : String}
    {u0 : UserDoc} {c0 : ConvDoc}
    (hph : phoneOf in_ = some ph)
    (hopen : db.conversations.find? (fun c => c.phone = some ph && c.status ≠ "closed") = some c0)
    (hu : db.findUser ph = some u0)
    (hlat : in_.lat = none)
    (hname : truthyS u0.name = true)
    (hloc : truthyS u0.location = true)
    (hpol : u0.policy_agreed = true)
    (hpend : u0.pending_field = none)
    (hprov : db.findProv ph = none)
    (hyes : pyLower (pyStrip in_.message) = "yes") :
    chat env db in_ =
      (match bookStage env (db.pushMsg c0.session_id "user" in_.message) in_ ph c0.session_id
          u0.location [] with
       | .ret dbx pr => (dbx, some pr)
       | .crash dbx => (dbx, none)
       | .cont dbx => tailLLM env dbx in_ c0.session_id u0.location) := by
  unfold chat
  rw [hph]
  dsimp only
  rw [hopen]
  dsimp only
  have hu2 : (db.pushMsg c0.session_id "user" in_.message).findUser ph = some u0 := hu
  have hprov2 : (db.pushMsg c0.session_id "user" in_.message).findProv ph = none := hprov
  rw [regStage_registered hu2 hlat hname hloc hpol hpend (by rw [hyes]; decide)]
  dsimp only
  rw [provStage_skip hprov2 (by rw [hyes]; decide)]

end BookingBot

namespace BookingBot

/-- Claim C4: in `awaiting_confirm` with a fully specified draft, an inbound
message that is neither a confirm word nor a cancel word inserts no booking
and leaves the booking_state of the conversation at `awaiting_confirm`. -/
theorem awaiting_confirm_idempotent {env : Env} {db : DB} {in_ : ChatIn} {ph : String}
    {c0 : ConvDoc} {d : Draft}
    (hph : phoneOf in_ = some ph)
    (hopen : db.conversations.find? (fun c => c.phone = some ph && c.status ≠ "closed") = some c0)
    (hsess : db.findConv c0.session_id = some c0)
    (hstate : c0.booking_state = some "awaiting_confirm")
    (hdraft : c0.booking_draft = some d)
    (hs : truthyS d.service = true) (hi : truthyS d.issue = true)
    (hdt : truthyS d.date_time = true) (hpid : truthyS d.provider_id = true)
    (haddr : d.address.isSome = true)
    (hnc : (confirmWords.any (fun w =>
      pyLower (pyStrip in_.message) = w || pyStarts (pyLower (pyStrip in_.message)) w)) = false)
    (hncan : ((pyLower (pyStrip in_.message)) = "no" ||
              (pyLower (pyStrip in_.message)) = "n" ||
              (pyLower (pyStrip in_.message)) = "cancel" ||
              (pyLower (pyStrip in_.message)) = "stop") = false) :
    (chat env db in_).1.bookings = db.bookings ∧
    stateAt (chat env db in_).1 c0.session_id = some "awaiting_confirm" := by
  have hdb0 : stateAt db c0.session_id = some "awaiting_confirm" := by
    rw [stateAt_of_findConv hsess]; exact hstate
  unfold chat
  rw [hph]
  dsimp only
  rw [hopen]
  dsimp only
  set db2 := db.pushMsg c0.session_id "user" in_.message with hdb2
  have hc1 : db2.findConv c0.session_id =
      some { c0 with messages := c0.messages ++ [⟨"user", in_.message⟩] } :=
    findConv_pushMsg_self _ _ hsess
  have hdb2state : stateAt db2 c0.session_id = some "awaiting_confirm" := by
    rw [stateAt_pushMsg]; exact hdb0
  have hdb2book : db2.bookings = db.bookings := bookings_pushMsg db _ _ _
  rcases hR : regStage env db2 in_ ph c0.session_id with ⟨db3, r3⟩ | ⟨db3, loc3, m3⟩
  · have hRi := regStage_ret_inv hR
    dsimp only
    exact ⟨hRi.1.trans hdb2book, by rw [hRi.2 c0.session_id]; exact hdb2state⟩
  · obtain ⟨hRb, hRc, rfl⟩ := regStage_cont_inv hR
    dsimp only
    have hconv3 : db3.findConv c0.session_id =
        some { c0 with messages := c0.messages ++ [⟨"user", in_.message⟩] } := by
      unfold DB.findConv
      rw [hRc]
      exact hc1
    rcases hP : provStage env db3 in_ ph c0.session_id with ⟨db4, r4⟩ | db4
    · have hPi := provStage_ret_inv hP
      dsimp only
      refine ⟨hPi.1.trans (hRb.trans hdb2book), ?_⟩
      rw [hPi.2 c0.session_id, stateAt_congr hRc c0.session_id]
      exact hdb2state
    · have h43 : db4 = db3 := provStage_cont_inv hP
      dsimp only
      have hconv4 : db4.findConv c0.session_id =
          some { c0 with messages := c0.messages ++ [⟨"user", in_.message⟩] } := by
        rw [h43]; exact hconv3
      have hB := @bookStage_c4 env db4 in_ ph c0.session_id loc3 _ _
        hconv4 hstate hdraft hs hi hdt hpid haddr hnc hncan
      have hb4 : db4.bookings = db.bookings := by rw [h43, hRb, hdb2book]
      rcases hBe : bookStage env db4 in_ ph c0.session_id loc3 [] with ⟨db5, r5⟩ | db5 | db5
      all_goals rw [hBe] at hB
      · dsimp only [BookOut.db] at hB
        exact ⟨hB.1.trans hb4, hB.2⟩
      · dsimp only [BookOut.db] at hB
        exact ⟨hB.1.trans hb4, hB.2⟩
      · dsimp only [BookOut.db] at hB
        have hT := tailLLM_inv env db5 in_ c0.session_id loc3
        exact ⟨hT.1.trans (hB.1.trans hb4),
          by rw [hT.2 c0.session_id]; exact hB.2⟩

/-- Claim C10: in `awaiting_confirm`, when the date_time of the draft does
not parse as ISO-8601, an affirmative reply still inserts a booking whose start
and end are both null, and `_is_provider_available` returns `true` whenever
the provider id, start, or end is missing, so no overlap check happens. -/
theorem confirm_missing_datetime_inserts {env : Env} {db : DB} {in_ : ChatIn} {ph : String}
    {u0 : UserDoc} {c0 : ConvDoc} {d : Draft}
    (hph : phoneOf in_ = some ph)
    (hopen : db.conversations.find? (fun c => c.phone = some ph && c.status ≠ "closed") = some c0)
    (hsess : db.findConv c0.session_id = some c0)
    (hu : db.findUser ph = some u0)
    (hlat : in_.lat = none)
    (hname : truthyS u0.name = true)
    (hloc : truthyS u0.location = true)
    (hpol : u0.policy_agreed = true)
    (hpend : u0.pending_field = none)
    (hprov : db.findProv ph = none)
    (hyes : pyLower (pyStrip in_.message) = "yes")
    (hstate : c0.booking_state = some "awaiting_confirm")
    (hdraft : c0.booking_draft = some d)
    (hpo : c0.provider_options = none)
    (hao : c0.address_options = none)
    (haddr : d.address.isSome = true)
    (hpid : truthyS d.provider_id = true)
    (hstart : (if truthyS d.date_time = true then env.fromIso (d.date_time.getD "") else none) = none) :
    (chat env db in_).1.bookings = db.bookings ++
      [{ _id := db.nextId, user_id := some ph, provider_id := d.provider_id, start := none,
         end_ := none, notes := d.issue, service := d.service, address := d.address,
         created_at := some env.nowInstant }] ∧
    (chat env db in_).2 = some ("Done! Booked " ++ orS d.provider_name "Provider" ++ " for " ++
      pyRepr d.date_time ++ " at " ++ joinAddr (d.address.getD {}) ++ ".") ∧
    (∀ dbx s e, _is_provider_available dbx none s e = true) ∧
    (∀ dbx pid e, _is_provider_available dbx pid none e = true) ∧
    (∀ dbx pid s, _is_provider_available dbx pid s none = true) := by
  rw [chat_entry_yes hph hopen hu hlat hname hloc hpol hpend hprov hyes]
  have hc1 : (db.pushMsg c0.session_id "user" in_.message).findConv c0.session_id =
      some { c0 with messages := c0.messages ++ [⟨"user", in_.message⟩] } :=
    findConv_pushMsg_self _ _ hsess
  rw [bookStage_confirm_nodt hc1 hstate hdraft hpo hao haddr hpid hyes hstart]
  unfold commitBooking
  dsimp only
  refine ⟨?_, ?_, ?_, ?_, ?_⟩
  · simp only [bookings_pushMsg, bookings_updConv]
    rfl
  · rfl
  · intro dbx s e
    rfl
  · intro dbx pid e
    unfold _is_provider_available
    simp
  · intro dbx pid s
    unfold _is_provider_available
    simp

end BookingBot

namespace BookingBot

/-- Claim C7: confirming in `awaiting_confirm` when the slot of the chosen
provider now conflicts books the first ranked available alternative of the same
service whose id differs from the chosen provider id; with no alternative, no
booking is inserted, the state demotes to `collecting` with the draft kept,
and the reply asks for another time. -/
theorem confirm_conflict_alternative {env : Env} {db : DB} {in_ : ChatIn} {ph : String}
    {u0 : UserDoc} {c0 : ConvDoc} {d : Draft} {st : Int}
    (hph : phoneOf in_ = some ph)
    (hopen : db.conversations.find? (fun c => c.phone = some ph && c.status ≠ "closed") = some c0)
    (hsess : db.findConv c0.session_id = some c0)
    (hu : db.findUser ph = some u0)
    (hlat : in_.lat = none)
    (hname : truthyS u0.name = true)
    (hloc : truthyS u0.location = true)
    (hpol : u0.policy_agreed = true)
    (hpend : u0.pending_field = none)
    (hprov : db.findProv ph = none)
    (hyes : pyLower (pyStrip in_.message) = "yes")
    (hstate : c0.booking_state = some "awaiting_confirm")
    (hdraft : c0.booking_draft = some d)
    (hpo : c0.provider_options = none)
    (hao : c0.address_options = none)
    (haddr : d.address.isSome = true)
    (hpid : truthyS d.provider_id = true)
    (hdtT : truthyS d.date_time = true)
    (hparse : env.fromIso (d.date_time.getD "") = some st)
    (hunavail : _is_provider_available db d.provider_id (some st) (some (st + 60)) = false) :
    (match (_find_nearby_providers env db d.service (some u0) (some st) 60 30000).find?
        (fun p => p.available && toString p.doc._id ≠ d.provider_id.getD "") with
     | some a =>
       (chat env db in_).1.bookings = db.bookings ++
         [{ _id := db.nextId, user_id := some ph, provider_id := some (toString a.doc._id),
            start := some st, end_ := some (st + 60), notes := d.issue, service := d.service,
            address := d.address, created_at := some env.nowInstant }] ∧
       (chat env db in_).2 = some ("Done! Booked " ++ orS a.doc.name (orS d.provider_name "Provider") ++
         " for " ++ env.fmtDT st ++ " at " ++ joinAddr (d.address.getD {}) ++ ".")
     | none =>
       (chat env db in_).1.bookings = db.bookings ∧
       ((chat env db in_).1.findConv c0.session_id).bind (fun c => c.booking_state) =
         some "collecting" ∧
       ((chat env db in_).1.findConv c0.session_id).bind (fun c => c.booking_draft) = some d ∧
       (chat env db in_).2 =
         some "No providers are available at that time. Please share another time that works for you.") := by
  rw [chat_entry_yes hph hopen hu hlat hname hloc hpol hpend hprov hyes]
  have hc1 : (db.pushMsg c0.session_id "user" in_.message).findConv c0.session_id =
      some { c0 with messages := c0.messages ++ [⟨"user", in_.message⟩] } :=
    findConv_pushMsg_self _ _ hsess
  have hunavail2 : _is_provider_available (db.pushMsg c0.session_id "user" in_.message)
      d.provider_id (some st) (some (st + 60)) = false := hunavail
  rw [bookStage_confirm_conflict hc1 hstate hdraft hpo hao haddr hpid hyes hdtT hparse hunavail2]
  have hfu : (db.pushMsg c0.session_id "user" in_.message).findUser ph = some u0 := hu
  rw [hfu]
  have hfind : _find_nearby_providers env (db.pushMsg c0.session_id "user" in_.message) d.service
      (some u0) (some st) 60 30000 =
      _find_nearby_providers env db d.service (some u0) (some st) 60 30000 := rfl
  rw [hfind]
  rcases hf : (_find_nearby_providers env db d.service (some u0) (some st) 60 30000).find?
      (fun p => p.available && toString p.doc._id ≠ d.provider_id.getD "") with _ | a
  · rw [hf]
    refine ⟨?_, ?_, ?_, ?_⟩
    · simp only [bookings_pushMsg, bookings_updConv]
    · have h2 := findConv_updConv_self hc1
        (f := fun c => { c with booking_draft := some d, booking_state := some "collecting" })
        (fun _ => rfl)
      have h3 := findConv_pushMsg_self "assistant"
        "No providers are available at that time. Please share another time that works for you." h2
      rw [h3]
      rfl
    · have h2 := findConv_updConv_self hc1
        (f := fun c => { c with booking_draft := some d, booking_state := some "collecting" })
        (fun _ => rfl)
      have h3 := findConv_pushMsg_self "assistant"
        "No providers are available at that time. Please share another time that works for you." h2
      rw [h3]
      rfl
    · rfl
  · rw [hf]
    unfold commitBooking
    dsimp only
    refine ⟨?_, ?_⟩
    · simp only [bookings_pushMsg, bookings_updConv]
      rfl
    · rfl

/-- Claim C1: the conversational availability filter and the direct
booking-creation filter are the same predicate (`s < end AND e > start` on the
same provider); the interval test is symmetric and touching intervals never
conflict; `_is_provider_available` answers false exactly when some stored
booking conflicts; and `create_booking` rejects with 409 exactly when a
conflict exists and otherwise appends the booking. -/
theorem conflict_predicate_agreement (db : DB) (b : BookingDoc) (pid : String)
    (s e rs re : Int) (in_ : BookingIn) (h : pid ≠ "") :
    (apiConflictDoc b pid rs re = chatConflictDoc b pid rs re) ∧
    (chatConflictDoc (mkBk pid s e) pid rs re =
       chatConflictDoc (mkBk pid rs re) pid s e) ∧
    (chatConflictDoc (mkBk pid s e) pid e re = false) ∧
    (chatConflictDoc (mkBk pid s e) pid rs s = false) ∧
    (_is_provider_available db (some pid) (some rs) (some re) = false ↔
       ∃ bk ∈ db.bookings, chatConflictDoc bk pid rs re = true) ∧
    ((∃ bk ∈ db.bookings, apiConflictDoc bk in_.provider_id in_.start in_.end_ = true) →
       create_booking db in_ = .error 409) ∧
    ((∀ bk ∈ db.bookings, apiConflictDoc bk in_.provider_id in_.start in_.end_ = false) →
       create_booking db in_ = .ok
         ({ db with
            bookings := db.bookings ++
              [{ _id := db.nextId, user_id := some in_.user_id,
                 provider_id := some in_.provider_id, start := some in_.start,
                 end_ := some in_.end_, notes := in_.notes }],
            nextId := db.nextId + 1 }, toString db.nextId)) := by
  refine ⟨rfl, ?_, ?_, ?_, ?_, ?_, ?_⟩
  · unfold chatConflictDoc mkBk
    simp only [decide_eq_true_eq, Bool.and_comm, gt_iff_lt]
  · unfold chatConflictDoc mkBk
    simp
  · unfold chatConflictDoc mkBk
    simp
  · unfold _is_provider_available
    have ht : truthyS (some pid) = true := by simpa [truthyS] using h
    rw [ht]
    simp only [Bool.not_true, Bool.false_or, Option.isNone_some, Bool.or_self,
      Bool.false_eq_true, if_false, Option.getD_some]
    constructor
    · intro hne
      rcases hfind : db.bookings.find? (fun x => chatConflictDoc x pid rs re) with _ | y
      · rw [hfind] at hne
        simp at hne
      · refine ⟨y, List.mem_of_find?_eq_some hfind, ?_⟩
        have := List.find?_some hfind
        simpa using this
    · rintro ⟨bk, hmem, hbk⟩
      rcases hfind : db.bookings.find? (fun x => chatConflictDoc x pid rs re) with _ | y
      · exact absurd hbk (by
          have := List.find?_eq_none.mp hfind bk hmem
          simpa using this)
      · rfl
  · rintro ⟨bk, hmem, hbk⟩
    unfold create_booking
    rcases hfind : db.bookings.find? (fun x => apiConflictDoc x in_.provider_id in_.start in_.end_) with _ | y
    · exact absurd hbk (by
        have := List.find?_eq_none.mp hfind bk hmem
        simpa using this)
    · rfl
  · intro hall
    unfold create_booking
    rcases hfind : db.bookings.find? (fun x => apiConflictDoc x in_.provider_id in_.start in_.end_) with _ | y
    · rfl
    · have hy := List.find?_some hfind
      have := hall y (List.mem_of_find?_eq_some hfind)
      simp [this] at hy

/-- Checks claim C1 at concrete data: provider "7", existing booking
`[600, 660)`, touching request `[660, 720)` accepted, overlapping request
`[630, 690)` rejected. -/
theorem conflict_predicate_agreement_witness :
    ("7" : String) ≠ "" ∧
    ((apiConflictDoc (mkBk "7" 600 660) "7" 630 690 =
        chatConflictDoc (mkBk "7" 600 660) "7" 630 690) ∧
     (chatConflictDoc (mkBk "7" 600 660) "7" 630 690 =
        chatConflictDoc (mkBk "7" 630 690) "7" 600 660) ∧
     (chatConflictDoc (mkBk "7" 600 660) "7" 660 720 = false) ∧
     (chatConflictDoc (mkBk "7" 600 660) "7" 540 600 = false) ∧
     (_is_provider_available { bookings := [mkBk "7" 600 660] } (some "7")
         (some 630) (some 690) = false ↔
        ∃ bk ∈ ({ bookings := [mkBk "7" 600 660] } : DB).bookings,
          chatConflictDoc bk "7" 630 690 = true) ∧
     ((∃ bk ∈ ({ bookings := [mkBk "7" 600 660] } : DB).bookings,
          apiConflictDoc bk "7" 630 690 = true) →
        create_booking { bookings := [mkBk "7" 600 660] } ⟨"u", "7", 630, 690, none⟩ = .error 409) ∧
     ((∀ bk ∈ ({ bookings := [mkBk "7" 600 660] } : DB).bookings,
          apiConflictDoc bk "7" 630 690 = false) →
        create_booking { bookings := [mkBk "7" 600 660] } ⟨"u", "7", 630, 690, none⟩ = .ok
          ({ ({ bookings := [mkBk "7" 600 660] } : DB) with
             bookings := ({ bookings := [mkBk "7" 600 660] } : DB).bookings ++
               [{ _id := ({ bookings := [mkBk "7" 600 660] } : DB).nextId, user_id := some "u",
                  provider_id := some "7", start := some 630,
                  end_ := some 690, notes := none }],
             nextId := ({ bookings := [mkBk "7" 600 660] } : DB).nextId + 1 }, toString ({ bookings := [mkBk "7" 600 660] } : DB).nextId))) :=
  ⟨by decide, conflict_predicate_agreement { bookings := [mkBk "7" 600 660] }
      (mkBk "7" 600 660) "7" 600 660 630 690 ⟨"u", "7", 630, 690, none⟩ (by decide)⟩

/-! ### Claim C2: the provider ranker ordering -/

theorem distLE_trans (a b c : Option Int) (h1 : distLE a b = true)
    (h2 : distLE b c = true) : distLE a c = true := by
  rcases a with _ | x <;> rcases b with _ | y <;> rcases c with _ | z <;>
    simp_all [distLE] <;> omega

theorem distLE_total (a b : Option Int) : (distLE a b || distLE b a) = true := by
  rcases a with _ | x <;> rcases b with _ | y <;> simp [distLE] <;> omega

theorem rankLE_iff (p q : Enriched) : rankLE p q = true ↔ rankOrder p q := by
  unfold rankLE rankOrder
  split_ifs with h1 h2
  · simp only [decide_eq_true_eq, ne_eq] at h1 ⊢
    simp [h1]
  · simp only [ne_eq, not_not] at h1
    simp [h1, h2, decide_eq_true_eq, lt_irrefl]
  · simp only [ne_eq, not_not] at h1 h2
    simp [h1, h2, lt_irrefl]

theorem rankOrder_trans (a b c : Enriched) (h1 : rankOrder a b)
    (h2 : rankOrder b c) : rankOrder a c := by
  unfold rankOrder at h1 h2 ⊢
  rcases h1 with h1 | ⟨h1e, h1r⟩ | ⟨h1e, h1r, h1d⟩ <;>
    rcases h2 with h2 | ⟨h2e, h2r⟩ | ⟨h2e, h2r, h2d⟩ <;>
    first
      | (left; omega)
      | (right; left; exact ⟨by omega, by linarith⟩)
      | (right; right; refine ⟨by omega, by linarith, ?_⟩;
          first
            | (exact distLE_trans _ _ _ h1d h2d)
            | assumption)

theorem rankLE_trans (a b c : Enriched) (h1 : rankLE a b = true)
    (h2 : rankLE b c = true) : rankLE a c = true :=
  (rankLE_iff a c).mpr (rankOrder_trans a b c ((rankLE_iff a b).mp h1) ((rankLE_iff b c).mp h2))

theorem rankLE_total (a b : Enriched) : (rankLE a b || rankLE b a) = true := by
  rcases Nat.lt_trichotomy (availKey a.available) (availKey b.available) with h | h | h
  · have hx : rankLE a b = true := (rankLE_iff a b).mpr (Or.inl h)
    simp [hx]
  · rcases lt_trichotomy a.rating b.rating with hr | hr | hr
    · have hx : rankLE b a = true := (rankLE_iff b a).mpr (Or.inr (Or.inl ⟨h.symm, hr⟩))
      simp [hx]
    · rcases Bool.or_eq_true_iff.mp (distLE_total a.distance_m b.distance_m) with hd | hd
      · have hx : rankLE a b = true := (rankLE_iff a b).mpr (Or.inr (Or.inr ⟨h, hr, hd⟩))
        simp [hx]
      · have hx : rankLE b a = true := (rankLE_iff b a).mpr (Or.inr (Or.inr ⟨h.symm, hr.symm, hd⟩))
        simp [hx]
    · have hx : rankLE a b = true := (rankLE_iff a b).mpr (Or.inr (Or.inl ⟨h, hr⟩))
      simp [hx]
  · have hx : rankLE b a = true := (rankLE_iff b a).mpr (Or.inl h)
    simp [hx]

unseal List.merge List.mergeSort in
/-- Claim C2: the ranker returns at most 5 of its candidates, each output
element drawn from the input, ordered available-first, then rating
descending, then distance ascending with unknown distance last; on the
spec example A (available, 4.5, 2 km), B (unavailable, 5.0, 1 km),
C (available, 4.0, 1 km) the order is [A, C, B]. -/
theorem provider_ranking (l : List Enriched) :
    (rankEnriched l).length ≤ 5 ∧
    (rankEnriched l).Subperm l ∧
    (rankEnriched l).Pairwise rankOrder ∧
    rankEnriched [pA, pB, pC] = [pA, pC, pB] := by
  refine ⟨?_, ?_, ?_, by decide⟩
  · unfold rankEnriched
    simpa using List.length_take_le 5 _
  · unfold rankEnriched
    exact (List.take_sublist 5 _).subperm.trans (List.mergeSort_perm l rankLE).subperm
  · unfold rankEnriched
    refine List.Pairwise.imp (fun h => (rankLE_iff _ _).mp h) ?_
    exact ((List.sorted_mergeSort rankLE_trans rankLE_total l).sublist (List.take_sublist 5 _))

/-- Claim C5: the extractor yields a datetime only when a relative day word
and a clock time are both present, with pm adding 12 except for hour 12 and
am mapping hour 12 to 0; a clock time with no day word yields nothing;
"tomorrow at 3pm" is the next day at 15:00 and "3pm" alone is nothing. -/
theorem datetime_only_with_day_and_time (now : PyDateTime) (text : String) :
    (∀ d, _parse_natural_datetime now text = .ok (some d) →
       (pyContains (pyLower text) "tomorrow" = true ∨
          pyContains (pyLower text) "today" = true) ∧
       ∃ h0 m ap, searchTime (pyLower text).data = some (h0, m, ap) ∧
         d.hour = hour24 h0 ap ∧ d.minute = m ∧ d.second = 0 ∧ d.micro = 0 ∧
         d.day = (if pyContains (pyLower text) "tomorrow" then now.day + 1 else now.day)) ∧
    (pyContains (pyLower text) "tomorrow" = false →
       pyContains (pyLower text) "today" = false →
       _parse_natural_datetime now text = .ok none) ∧
    (searchTime (pyLower text).data = none →
       _parse_natural_datetime now text = .ok none) ∧
    _parse_natural_datetime now "tomorrow at 3pm" =
      .ok (some { day := now.day + 1, hour := 15, minute := 0, second := 0, micro := 0 }) ∧
    _parse_natural_datetime now "3pm" = .ok none := by
  refine ⟨?_, ?_, ?_, rfl, rfl⟩
  · intro d h
    unfold _parse_natural_datetime at h
    dsimp only at h
    rcases hst : searchTime (pyLower text).data with _ | ⟨h0, m, ap⟩
    · rw [hst] at h
      simp at h
    · rw [hst] at h
      by_cases htom : pyContains (pyLower text) "tomorrow"
      · rw [if_pos htom] at h
        dsimp only at h
        repeat' split at h
        all_goals
          first
            | (simp at h; done)
            | (simp only [Except.ok.injEq, Option.some.injEq] at h
               subst h
               refine ⟨Or.inl htom, h0, m, _, rfl, ?_, rfl, rfl, rfl, by rw [if_pos htom]⟩
               simp_all [hour24])
      · rw [if_neg htom] at h
        by_cases htod : pyContains (pyLower text) "today"
        · rw [if_pos htod] at h
          dsimp only at h
          repeat' split at h
          all_goals
            first
              | (simp at h; done)
              | (simp only [Except.ok.injEq, Option.some.injEq] at h
                 subst h
                 refine ⟨Or.inr htod, h0, m, _, rfl, ?_, rfl, rfl, rfl, by rw [if_neg htom]⟩
                 simp_all [hour24])
        · rw [if_neg htod] at h
          simp at h
  · intro htom htod
    unfold _parse_natural_datetime
    dsimp only
    rw [htom, htod]
    simp only [Bool.false_eq_true, if_false]
    cases searchTime (pyLower text).data with
    | none => rfl
    | some r => rfl
  · intro hst
    unfold _parse_natural_datetime
    dsimp only
    rw [hst]

/-- Checks claim C5 on a concrete input: "3pm" has no day word, so the
extractor returns nothing. -/
theorem datetime_only_with_day_and_time_witness :
    _parse_natural_datetime ⟨0, 0, 0, 0, 0⟩ "3pm" = .ok none :=
  (datetime_only_with_day_and_time ⟨0, 0, 0, 0, 0⟩ "3pm").2.1 (by decide) (by decide)

/-- Counterexample to claim C6 as stated: with `pending_field = "name"` set,
the inbound command "/profile" is NOT executed instead of being stored — it
is stored as the user\x27s name first, and then the command also executes,
printing the stored "/profile" back as the name. -/
theorem pending_slash_command_stored_counterexample :
    ((chat env0 db6 (inMsg "/profile")).1.findUser "263771").bind (fun u => u.name) =
      some "/profile" ∧
    ((chat env0 db6 (inMsg "/profile")).1.findUser "263771").bind (fun u => u.pending_field) =
      none ∧
    (chat env0 db6 (inMsg "/profile")).2 =
      some "Profile\nName: /profile\nLocation: -\nPolicy agreed: No\nPhone: 263771" := by
  refine ⟨by decide, by decide, by decide⟩

/-- Claim C6 (amended): when a pending registration field is set, the next
message without a location attachment is handled by field, always BEFORE the
command dispatch: a pending "name" consumes any non-empty message — slash
commands included — as the stored name and clears the flag; a pending
"location" likewise consumes it as the stored location; a pending "policy"
consumes nothing unless the message is an affirmative answer (yes/y/agree/i
agree), keeping the flag set.  In each case, whatever reply a recognized
slash command produces, it is computed on the database that already reflects
this consumption and becomes the reply of the turn — the command is never
executed "instead of" the store. -/
theorem pending_field_consumed_before_commands {env : Env} {db : DB} {in_ : ChatIn}
    {ph : String} {u0 : UserDoc} {c0 : ConvDoc}
    (hph : phoneOf in_ = some ph)
    (hopen : db.conversations.find? (fun c => c.phone = some ph && c.status ≠ "closed") = some c0)
    (hu : db.findUser ph = some u0)
    (hid : db.findUserById u0._id = some u0)
    (hlat : in_.lat = none)
    (hne : pyStrip in_.message ≠ "") :
    (u0.pending_field = some "name" → truthyS u0.location = true →
      ((db.pushMsg c0.session_id "user" in_.message).updUser u0._id (fun v =>
          { v with name := some (pyStrip in_.message), pending_field := none })).findUserById
        u0._id = some { u0 with name := some (pyStrip in_.message), pending_field := none } ∧
      ∀ dbc pr, regCommands env
          ((db.pushMsg c0.session_id "user" in_.message).updUser u0._id (fun v =>
            { v with name := some (pyStrip in_.message), pending_field := none })) in_
          { u0 with name := some (pyStrip in_.message), pending_field := none }
          ph c0.session_id = some (dbc, pr) →
        chat env db in_ = (dbc, some pr)) ∧
    (u0.pending_field = some "location" → u0.location = none → u0.coords = none →
      ((db.pushMsg c0.session_id "user" in_.message).updUser u0._id (fun v =>
          { v with location := some (pyStrip in_.message), pending_field := none })).findUserById
        u0._id = some { u0 with location := some (pyStrip in_.message), pending_field := none } ∧
      ∀ dbc pr, regCommands env
          ((db.pushMsg c0.session_id "user" in_.message).updUser u0._id (fun v =>
            { v with location := some (pyStrip in_.message), pending_field := none })) in_
          { u0 with location := some (pyStrip in_.message), pending_field := none }
          ph c0.session_id = some (dbc, pr) →
        chat env db in_ = (dbc, some pr)) ∧
    (u0.pending_field = some "policy" → truthyS u0.location = true →
      (decide (pyLower (pyStrip in_.message) = "yes") ||
       decide (pyLower (pyStrip in_.message) = "y") ||
       decide (pyLower (pyStrip in_.message) = "agree") ||
       decide (pyLower (pyStrip in_.message) = "i agree")) = false →
      (db.pushMsg c0.session_id "user" in_.message).findUserById u0._id = some u0 ∧
      ∀ dbc pr, regCommands env (db.pushMsg c0.session_id "user" in_.message) in_ u0
          ph c0.session_id = some (dbc, pr) →
        chat env db in_ = (dbc, some pr)) := by
  refine ⟨?_, ?_, ?_⟩
  · intro hpend hloc
    constructor
    · unfold DB.findUserById DB.updUser
      exact find?_updateFirst_self hid (fun a ha => ha)
    · intro dbc pr hc
      unfold chat
      rw [hph]
      dsimp only
      rw [hopen]
      dsimp only
      set db2 := db.pushMsg c0.session_id "user" in_.message with hdb2
      unfold regStage
      unfold regEnsureUser
      rw [show db2.findUser ph = some u0 from hu]
      dsimp only
      unfold regCoords
      rw [hlat]
      simp only [Option.isSome_none, Bool.false_and, Bool.not_false, Bool.true_and, hloc,
        Bool.not_true, Bool.and_false, Bool.false_eq_true, if_false]
      unfold regPending
      rw [hlat, hpend]
      have hneb : (decide ¬(pyStrip in_.message = "")) = true := by simp [hne]
      simp only [hneb, Bool.and_true, decide_eq_true_eq, if_pos rfl]
      rw [if_pos trivial]
      dsimp only
      have hid2 : ((db2.updUser u0._id fun v =>
          { v with name := some (pyStrip in_.message), pending_field := none }).findUserById
          u0._id) =
          some { u0 with name := some (pyStrip in_.message), pending_field := none } := by
        unfold DB.findUserById DB.updUser
        exact find?_updateFirst_self hid (fun a ha => ha)
      rw [hid2]
      dsimp only [Option.getD_some]
      rw [hc]
  · intro hpend hlocn hcoords
    constructor
    · unfold DB.findUserById DB.updUser
      exact find?_updateFirst_self hid (fun a ha => ha)
    · intro dbc pr hc
      unfold chat
      rw [hph]
      dsimp only
      rw [hopen]
      dsimp only
      set db2 := db.pushMsg c0.session_id "user" in_.message with hdb2
      unfold regStage
      unfold regEnsureUser
      rw [show db2.findUser ph = some u0 from hu]
      dsimp only
      unfold regCoords
      rw [hlat, hlocn]
      simp only [Option.isSome_none, Bool.false_and, Bool.not_false, Bool.true_and,
        truthyS, Bool.and_true, Bool.false_eq_true, if_false, eq_self_iff_true, if_true]
      rw [hcoords]
      dsimp only
      unfold regPending
      rw [hlat, hpend]
      have hneb : (decide ¬(pyStrip in_.message = "")) = true := by simp [hne]
      simp only [hneb, Bool.and_true, Bool.or_true, Option.isSome_none, Bool.false_and,
        show (decide ((some "location" : Option String) = some "name")) = false from by decide,
        Bool.false_eq_true, if_false,
        show (decide ((some "location" : Option String) = some "location")) = true from by decide,
        Bool.true_and, decide_eq_true_eq, if_pos rfl]
      rw [if_pos trivial]
      dsimp only
      have hid2 : ((db2.updUser u0._id fun v =>
          { v with location := some (pyStrip in_.message), pending_field := none }).findUserById
          u0._id) =
          some { u0 with location := some (pyStrip in_.message), pending_field := none } := by
        unfold DB.findUserById DB.updUser
        exact find?_updateFirst_self hid (fun a ha => ha)
      rw [hid2]
      dsimp only [Option.getD_some]
      rw [hc]
  · intro hpend hloc hny
    constructor
    · exact hid
    · intro dbc pr hc
      unfold chat
      rw [hph]
      dsimp only
      rw [hopen]
      dsimp only
      set db2 := db.pushMsg c0.session_id "user" in_.message with hdb2
      unfold regStage
      unfold regEnsureUser
      rw [show db2.findUser ph = some u0 from hu]
      dsimp only
      unfold regCoords
      rw [hlat]
      simp only [Option.isSome_none, Bool.false_and, Bool.not_false, Bool.true_and, hloc,
        Bool.not_true, Bool.and_false, Bool.false_eq_true, if_false]
      unfold regPending
      rw [hlat, hpend]
      simp only [
        show (decide ((some "policy" : Option String) = some "name")) = false from by decide,
        show (decide ((some "policy" : Option String) = some "location")) = false from by decide,
        show (decide ((some "policy" : Option String) = some "policy")) = true from by decide,
        Bool.false_and, Bool.false_eq_true, if_false, if_pos rfl]
      rw [hny]
      simp only [Bool.false_eq_true, if_false]
      rw [show db2.findUserById u0._id = some u0 from hid]
      dsimp only [Option.getD_some]
      rw [if_pos trivial]
      dsimp only
      rw [hc]

/-- Checks the amended claim C6 at concrete data: "/profile" sent while
`pending_field = "name"` is first stored as the name (pending cleared), and
the command then runs on the updated profile, printing the stored "/profile"
back as the name. -/
theorem pending_field_consumed_before_commands_witness :
    ((db6b.pushMsg "s1" "user" "/profile").updUser 0 (fun v =>
        { v with name := some (pyStrip "/profile"), pending_field := none })).findUserById 0 =
      some { _id := 0, phone := "263771", name := some (pyStrip "/profile"),
             location := some "Avondale, Harare", policy_agreed := true,
             pending_field := none } ∧
    chat env0 db6b (inMsg "/profile") =
      (((db6b.pushMsg "s1" "user" "/profile").updUser 0 (fun v =>
          { v with name := some (pyStrip "/profile"), pending_field := none })).pushMsg
         "s1" "assistant"
         "Profile\nName: /profile\nLocation: Avondale, Harare\nPolicy agreed: Yes\nPhone: 263771",
       some "Profile\nName: /profile\nLocation: Avondale, Harare\nPolicy agreed: Yes\nPhone: 263771") :=
  ⟨((@pending_field_consumed_before_commands env0 db6b (inMsg "/profile") "263771"
      { _id := 0, phone := "263771", name := some "Bob",
        location := some "Avondale, Harare", policy_agreed := true,
        pending_field := some "name" } openConv
      (by decide) (by decide) (by decide) (by decide) (by decide) (by decide)).1
      (by decide) (by decide)).1,
   ((@pending_field_consumed_before_commands env0 db6b (inMsg "/profile") "263771"
      { _id := 0, phone := "263771", name := some "Bob",
        location := some "Avondale, Harare", policy_agreed := true,
        pending_field := some "name" } openConv
      (by decide) (by decide) (by decide) (by decide) (by decide) (by decide)).1
      (by decide) (by decide)).2
     (((db6b.pushMsg "s1" "user" "/profile").updUser 0 (fun v =>
         { v with name := some (pyStrip "/profile"), pending_field := none })).pushMsg
        "s1" "assistant"
        "Profile\nName: /profile\nLocation: Avondale, Harare\nPolicy agreed: Yes\nPhone: 263771")
     "Profile\nName: /profile\nLocation: Avondale, Harare\nPolicy agreed: Yes\nPhone: 263771"
     (by decide)⟩

/-- Claim C3: refuted by the turn "today 99:30".  The inbound message is
persisted with role `user`, but the entity extractor calls
`base.replace(hour=99, minute=30)`, the uncaught `ValueError` aborts the
turn, no reply is produced and no assistant message is appended — contrary
to the claim that every branch terminates with exactly one reply. -/
theorem chat_crashes_on_out_of_range_time :
    (chat env0 db3 (inMsg "today 99:30")).2 = none ∧
    ((chat env0 db3 (inMsg "today 99:30")).1.findConv "s1").map (fun c => c.messages) =
      some [⟨"user", "today 99:30"⟩] ∧
    _parse_natural_datetime env0.nowDT "today 99:30" = .error () :=
  ⟨by decide, by decide, by decide⟩

/-- Claim C8: refuted on "i need cleaning".  The token-overlap fallback loop
computes a positive best score (1) against the stored service type
"cleaning" but never assigns the candidate variable, so no service is
written to the draft; with nothing extracted the handler replies with the
bare "Here’s what I need:" header and an empty list instead of drafting a
cleaning request. -/
theorem service_fallback_never_assigns :
    svcFallbackLoop (svcDistinct db8.providers) "i need cleaning" = (1, none) ∧
    ((chat env0 db8 (inMsg "i need cleaning")).1.findConv "s1").bind
      (fun c => c.booking_draft) = none ∧
    (chat env0 db8 (inMsg "i need cleaning")).2 = some "Here’s what I need:\n" :=
  ⟨by decide, by decide, by decide⟩

/-- Counterexample to claim C9 as stated: `+` characters are kept wherever
they occur, not only in leading position.  From "1+2@x.net" the code keeps
the interior `+` and yields "1+2"; the claimed "digits and a leading `+`
only" normalization would yield "12". -/
theorem phone_interior_plus_counterexample :
    _extract_phone (some "1+2@x.net") = some "1+2" := by decide

/-- Claim C9 (amended): the token is the before-first-`@` portion of the
identifier filtered to digit and `+` characters (wherever the `+` occurs),
produced only when at least one digit survives; an identifier with no digit
yields no token. -/
theorem phone_token_amended (s : String) :
    (∀ r, _extract_phone (some s) = some r →
       r = ⟨(beforeFirst '@' s).data.filter (fun ch => ch.isDigit || ch = '+')⟩ ∧
       r.data.any Char.isDigit = true) ∧
    (s.data.any Char.isDigit = false → _extract_phone (some s) = none) := by
  have hbf : s.data.contains '@' = false → beforeFirst '@' s = s := by
    intro hc
    unfold beforeFirst
    have ht : s.data.takeWhile (fun c => decide ¬(c = '@')) = s.data := by
      rw [List.takeWhile_eq_self_iff]
      intro a ha
      have hne : ¬ a = '@' := by
        intro hq
        rw [List.contains_eq_any_beq] at hc
        have h3 := List.any_eq_false.mp hc a ha
        rw [hq] at h3
        simp at h3
      simp [hne]
    rw [ht]
  have hdig : ∀ (l : List Char), (∀ c ∈ l, c ∈ s.data) →
      s.data.any Char.isDigit = false →
      (l.filter (fun ch => ch.isDigit || ch = '+')).any Char.isDigit = false := by
    intro l hl hnod
    rw [List.any_eq_false]
    intro c hcmem
    have hcs : c ∈ s.data := hl c (List.mem_of_mem_filter hcmem)
    have h2 := List.any_eq_false.mp hnod c hcs
    simpa using h2
  constructor
  · intro r h
    unfold _extract_phone at h
    dsimp only at h
    by_cases hemp : s = ""
    · rw [if_pos hemp] at h
      exact absurd h (by simp)
    · rw [if_neg hemp] at h
      rcases hc : s.data.contains '@' with _ | _ <;> rw [hc] at h
      · rw [if_neg (by simp : ¬ (false = true))] at h
        rcases ha : (s.data.filter (fun ch => ch.isDigit || ch = '+')).any Char.isDigit
          with _ | _ <;> rw [ha] at h
        · exact absurd h (by simp)
        · rw [if_pos rfl] at h
          have hr : r = ⟨s.data.filter (fun ch => ch.isDigit || ch = '+')⟩ := by
            injection h with h2
            exact h2.symm
          rw [hbf hc]
          exact ⟨hr, by rw [hr]; exact ha⟩
      · rw [if_pos rfl] at h
        rcases ha : ((beforeFirst '@' s).data.filter (fun ch => ch.isDigit || ch = '+')).any Char.isDigit
          with _ | _ <;> rw [ha] at h
        · exact absurd h (by simp)
        · rw [if_pos rfl] at h
          have hr : r = ⟨(beforeFirst '@' s).data.filter (fun ch => ch.isDigit || ch = '+')⟩ := by
            injection h with h2
            exact h2.symm
          exact ⟨hr, by rw [hr]; exact ha⟩
  · intro hnod
    unfold _extract_phone
    dsimp only
    by_cases hemp : s = ""
    · rw [if_pos hemp]
    · rw [if_neg hemp]
      rcases hc : s.data.contains '@' with _ | _
      · rw [if_neg (by simp : ¬ (false = true))]
        rw [hdig s.data (fun c hcm => hcm) hnod]
        rw [if_neg (by simp : ¬ (false = true))]
      · rw [if_pos rfl]
        have hsubp : ∀ c ∈ (beforeFirst '@' s).data, c ∈ s.data := by
          intro c hcv
          unfold beforeFirst at hcv
          exact (List.takeWhile_prefix _).subset hcv
        rw [hdig (beforeFirst '@' s).data hsubp hnod]
        rw [if_neg (by simp : ¬ (false = true))]

/-- Checks the amended claim C9 at "1+2@x.net": the kept token is exactly the
digit/plus filter of "1+2", and an all-letter identifier yields nothing. -/
theorem phone_token_amended_witness :
    (some "1+2" : Option String) =
      some ⟨(beforeFirst '@' "1+2@x.net").data.filter (fun ch => ch.isDigit || ch = '+')⟩ ∧
    ("1+2" : String).data.any Char.isDigit = true ∧
    _extract_phone (some "abc") = none := by
  have h1 := (phone_token_amended "1+2@x.net").1 "1+2" (by decide)
  have h2 := (phone_token_amended "abc").2 (by decide)
  exact ⟨congrArg some h1.1, h1.2, h2⟩

/-- Checks claim C4 at concrete data: "hello there" while awaiting
confirmation inserts nothing and keeps the state. -/
theorem awaiting_confirm_idempotent_witness :
    (chat env0 db4 (inMsg "hello there")).1.bookings = db4.bookings ∧
    stateAt (chat env0 db4 (inMsg "hello there")).1 conv4.session_id =
      some "awaiting_confirm" :=
  @awaiting_confirm_idempotent env0 db4 (inMsg "hello there") "263771" conv4 fullDraft
    (by decide) (by decide) (by decide) (by decide) (by decide) (by decide)
    (by decide) (by decide) (by decide) (by decide) (by decide) (by decide)

unseal List.merge List.mergeSort in
/-- Checks claim C7 at concrete data: confirming while provider 7 is now
booked and no alternative exists inserts nothing, demotes to `collecting`
keeping the draft, and asks for another time. -/
theorem confirm_conflict_alternative_witness :
    (chat env0 db7 (inMsg "yes")).1.bookings = db7.bookings ∧
    ((chat env0 db7 (inMsg "yes")).1.findConv conv4.session_id).bind
      (fun c => c.booking_state) = some "collecting" ∧
    ((chat env0 db7 (inMsg "yes")).1.findConv conv4.session_id).bind
      (fun c => c.booking_draft) = some fullDraft ∧
    (chat env0 db7 (inMsg "yes")).2 =
      some "No providers are available at that time. Please share another time that works for you." :=
  @confirm_conflict_alternative env0 db7 (inMsg "yes") "263771" regUser conv4 fullDraft 600
    (by decide) (by decide) (by decide) (by decide) (by decide) (by decide)
    (by decide) (by decide) (by decide) (by decide) (by decide) (by decide)
    (by decide) (by decide) (by decide) (by decide) (by decide) (by decide)
    (by decide) (by decide)

/-- Checks claim C10 at concrete data: confirming a draft whose date_time is
not ISO-8601 inserts a booking with null start/end. -/
theorem confirm_missing_datetime_inserts_witness :
    (chat env0 db10 (inMsg "yes")).1.bookings = db10.bookings ++
      [{ _id := db10.nextId, user_id := some "263771", provider_id := draft10.provider_id,
         start := none, end_ := none, notes := draft10.issue, service := draft10.service,
         address := draft10.address, created_at := some env0.nowInstant }] ∧
    (chat env0 db10 (inMsg "yes")).2 = some ("Done! Booked " ++
      orS draft10.provider_name "Provider" ++ " for " ++ pyRepr draft10.date_time ++
      " at " ++ joinAddr (draft10.address.getD {}) ++ ".") ∧
    (∀ dbx s e, _is_provider_available dbx none s e = true) ∧
    (∀ dbx pid e, _is_provider_available dbx pid none e = true) ∧
    (∀ dbx pid s, _is_provider_available dbx pid s none = true) :=
  @confirm_missing_datetime_inserts env0 db10 (inMsg "yes") "263771" regUser conv10 draft10
    (by decide) (by decide) (by decide) (by decide) (by decide) (by decide)
    (by decide) (by decide) (by decide) (by decide) (by decide) (by decide)
    (by decide) (by decide) (by decide) (by decide) (by decide) (by decide)

end BookingBot
